import Mathlib

/-!
Verification development for the TesterTool web-page analysis pipeline.

This file gives a shallow embedding, in Lean, of the core components of the
repository (src/analyzer/crawler.py, parser.py, language_analyzer.py,
test_generator.py) and proves properties of the embedded code.

Modelling conventions:
* Python dicts with a fixed key set are Lean structures; a key that may be
  absent is an `Option` field (`none` = key missing), and a key that may be
  present with value `None` is `Option (Option _)`.
* HTML is modelled as the element tree produced by the external HTML parser
  (BeautifulSoup/lxml): an inductive `Node` of text nodes and elements with
  an attribute list.  `find_all` is depth-first document order.
* The external network (requests.Session) and the external language
  classifier (langid) and charset detector (charset_normalizer) are explicit
  function parameters of the embedded code.
* `urllib.parse` functions (`urljoin`, `urlparse`, ...) used by the source
  are translated from CPython's `urllib/parse.py`; operations that can raise
  `ValueError` return `Except String _`.
* Machine floats of the source are modelled as `ℚ`; Python string formatting
  (`:.0%`, `:.1%`) is modelled with round-half-even on `ℚ`.
-/

namespace TesterTool

/-! ## Python string primitives -/

/-- Python truthiness of an optional string value (`None` and `''` are falsy). -/
def pyTruthyStr (v : Option String) : Bool :=
  match v with
  | none => false
  | some s => s ≠ ""

/-- Python `str(x)` for an optional string (`None` prints as `"None"`). -/
def pyStrOfOptStr (v : Option String) : String :=
  match v with
  | none => "None"
  | some s => s

/-- Python `str(x)` for an optional integer (`None` prints as `"None"`). -/
def pyStrOfOptInt (v : Option Int) : String :=
  match v with
  | none => "None"
  | some n => toString n

/-- `needle.isPrefixOf hay` on character lists (`List.isPrefixOf` with `BEq Char`). -/
def listStartsWith (hay needle : List Char) : Bool :=
  match needle, hay with
  | [], _ => true
  | _ :: _, [] => false
  | n :: ns, h :: hs => n = h && listStartsWith hs ns

/-- Substring containment on character lists; `pySubList h n = true` iff `n`
occurs contiguously in `h` (Python `needle in hay`; the empty needle is
contained in everything). -/
def pySubList (hay needle : List Char) : Bool :=
  listStartsWith hay needle ||
    match hay with
    | [] => false
    | _ :: t => pySubList t needle

/-- Python `needle in hay` for strings. -/
def pyIn (needle hay : String) : Bool :=
  pySubList hay.toList needle.toList

/-- Python `c in hay` for a single character. -/
def pyInChar (c : Char) (hay : List Char) : Bool :=
  hay.contains c

/-- ASCII lower-casing, as Python `str.lower` behaves on ASCII input. -/
def pyLower (s : String) : String :=
  String.mk (s.toList.map Char.toLower)

/-- Python `str.startswith` for strings. -/
def pyStartsWith (s pre : String) : Bool :=
  listStartsWith s.toList pre.toList

/-- The whitespace characters recognised by Python's `str.strip` / `\s`
(ASCII subset; the source only meets ASCII whitespace through this model). -/
def pyIsSpace (c : Char) : Bool :=
  c = ' ' || c = '\t' || c = '\n' || c = '\r' || c = '\x0b' || c = '\x0c'

/-- Python `str.strip()` with default (whitespace) argument. -/
def pyStrip (s : String) : String :=
  String.mk (((s.toList.dropWhile pyIsSpace).reverse.dropWhile pyIsSpace).reverse)

/-- Collapse every maximal run of whitespace to a single space
(`re.sub(r'\s+', ' ', text)`): the flag records whether the previous
character was part of a whitespace run already emitted as one space. -/
def collapseWsAux (prevSpace : Bool) : List Char → List Char
  | [] => []
  | c :: t =>
    if pyIsSpace c then
      if prevSpace then collapseWsAux true t else ' ' :: collapseWsAux true t
    else c :: collapseWsAux false t

/-- `re.sub(r'\s+', ' ', text)`. -/
def collapseWs (l : List Char) : List Char :=
  collapseWsAux false l

/-- Python `'sep'.join` is `String.intercalate`; exported with the Python name
direction for readability at use sites. -/
def pyJoin (sep : String) (parts : List String) : String :=
  String.intercalate sep parts

/-- Python `s.split(sep)` for a one-character separator (keeps empty parts). -/
def pySplitChar (s : String) (sep : Char) : List String :=
  (s.toList.splitOn sep).map String.mk

/-- First index of `c` in `l` (Python `str.find`, as an `Option`). -/
def pyFindChar (l : List Char) (c : Char) : Option Nat :=
  l.findIdx? (fun x => x = c)

/-- First index `≥ start` of `c` in `l` (Python `str.find(c, start)`). -/
def pyFindCharFrom (l : List Char) (c : Char) (start : Nat) : Option Nat :=
  (pyFindChar (l.drop start) c).map (· + start)

/-- Last index of `c` in `l` (Python `str.rfind`, as an `Option`). -/
def pyRFindChar (l : List Char) (c : Char) : Option Nat :=
  (pyFindChar l.reverse c).map (fun i => l.length - 1 - i)

/-- Split at the first occurrence of `c` (Python `s.split(c, 1)` when `c`
occurs). -/
def pySplitOnce (l : List Char) (c : Char) : List Char × List Char :=
  match pyFindChar l c with
  | none => (l, [])
  | some i => (l.take i, l.drop (i + 1))

/-! ## Numeric formatting (Python `format`) -/

/-- Round half to even on `ℚ`, as Python `format` rounds floats. -/
def roundHalfEven (x : ℚ) : ℤ :=
  let f : ℤ := ⌊x⌋
  let r : ℚ := x - (f : ℚ)
  if r < 1/2 then f
  else if (1/2 : ℚ) < r then f + 1
  else if f % 2 = 0 then f else f + 1

/-- Pad a decimal numeral with leading zeros to at least `w` digits
(Python `str.zfill` on an unsigned numeral). -/
def zfill (w : Nat) (s : String) : String :=
  if s.length < w then String.mk (List.replicate (w - s.length) '0') ++ s else s

/-- Python `f"{x:.d%}"`: multiply by 100, round (half-even) to `d` decimal
places, render with a trailing percent sign. -/
def pyFormatPercent (d : Nat) (x : ℚ) : String :=
  let scaled : ℚ := x * 100 * ((10 : ℚ) ^ d)
  let n : ℤ := roundHalfEven scaled
  let sign : String := if n < 0 then "-" else ""
  let a : Nat := n.natAbs
  let digits : String := toString a
  if d = 0 then sign ++ digits ++ "%"
  else
    let digits := zfill (d + 1) digits
    let ip := digits.toList.take (digits.length - d)
    let fp := digits.toList.drop (digits.length - d)
    sign ++ String.mk ip ++ "." ++ String.mk fp ++ "%"

/-! ## `urllib.parse` model

Translated from CPython `Lib/urllib/parse.py` (the fragment the repository
uses: `urlsplit`, `urlparse`, `urlunsplit`, `urlunparse`, `urljoin`).
The non-ASCII `_checknetloc` NFKC check and the full bracketed-host
validation of newer CPython are not modelled (the bracket-mismatch
`ValueError` — the raise reachable for ASCII inputs — is). -/

def usesRelative : List String :=
  ["", "ftp", "http", "gopher", "nntp", "imap", "wais", "file", "https",
   "shttp", "mms", "prospero", "rtsp", "rtspu", "sftp", "svn", "svn+ssh",
   "ws", "wss"]

def usesNetloc : List String :=
  ["", "ftp", "http", "gopher", "nntp", "telnet", "imap", "wais", "file",
   "mms", "https", "shttp", "snews", "prospero", "rtsp", "rtspu", "rsync",
   "svn", "svn+ssh", "sftp", "nfs", "git", "git+ssh", "ws", "wss",
   "itms-services"]

def usesParams : List String :=
  ["", "ftp", "hdl", "prospero", "http", "imap", "https", "shttp", "rtsp",
   "rtsps", "rtspu", "sip", "sips", "mms", "sftp", "tel"]

/-- Characters allowed in a URL scheme after the first letter. -/
def schemeChars : List Char :=
  "abcdefghijklmnopqrstuvwxyzABCDEFGHIJKLMNOPQRSTUVWXYZ0123456789+-.".toList

structure SplitResult where
  scheme : String
  netloc : String
  path : String
  query : String
  fragment : String
deriving Repr, DecidableEq

structure ParseResult where
  scheme : String
  netloc : String
  path : String
  params : String
  query : String
  fragment : String
deriving Repr, DecidableEq

/-- `urllib.parse.urlsplit(url, scheme)` (with `allow_fragments=True`).
Raises (`Except.error`) on a netloc with unbalanced square brackets. -/
def urlsplit (url0 : String) (defaultScheme : String) : Except String SplitResult := do
  -- url = url.replace(b, "") for b in ('\t', '\r', '\n')
  let url : List Char := url0.toList.filter (fun c => !(c = '\t' || c = '\r' || c = '\n'))
  -- scheme detection
  let (scheme, url) :=
    match pyFindChar url ':' with
    | some i =>
      if 0 < i
          && (match url.head? with | some c => c.isAlpha | none => false)
          && (url.take i).all (fun c => schemeChars.contains c) then
        (String.mk ((url.take i).map Char.toLower), url.drop (i + 1))
      else (defaultScheme, url)
    | none => (defaultScheme, url)
  -- netloc
  let netlocAndUrl : Except String (List Char × List Char) :=
    if listStartsWith url "//".toList then
      let rest := url.drop 2
      let delim := (rest.findIdx? (fun c => c = '/' || c = '?' || c = '#')).getD rest.length
      let netloc := rest.take delim
      if (pyInChar '[' netloc && !pyInChar ']' netloc)
          || (pyInChar ']' netloc && !pyInChar '[' netloc) then
        .error "Invalid IPv6 URL"
      else
        .ok (netloc, rest.drop delim)
    else .ok ([], url)
  let (netloc, url) ← netlocAndUrl
  -- fragment, then query
  let (url, fragment) :=
    if pyInChar '#' url then pySplitOnce url '#' else (url, [])
  let (url, query) :=
    if pyInChar '?' url then pySplitOnce url '?' else (url, [])
  pure ⟨scheme, String.mk netloc, String.mk url, String.mk query, String.mk fragment⟩

/-- `urllib.parse._splitparams`. -/
def splitparams (url : List Char) : List Char × List Char :=
  let i : Option Nat :=
    if pyInChar '/' url then
      pyFindCharFrom url ';' ((pyRFindChar url '/').getD 0)
    else
      pyFindChar url ';'
  match i with
  | none => (url, [])
  | some i => (url.take i, url.drop (i + 1))

/-- `urllib.parse.urlparse(url, scheme)`. -/
def urlparse (url : String) (defaultScheme : String) : Except String ParseResult := do
  let s ← urlsplit url defaultScheme
  if pyInChar ';' s.path.toList && usesParams.contains s.scheme then
    let (p, params) := splitparams s.path.toList
    pure ⟨s.scheme, s.netloc, String.mk p, String.mk params, s.query, s.fragment⟩
  else
    pure ⟨s.scheme, s.netloc, s.path, "", s.query, s.fragment⟩

/-- `urllib.parse.urlunsplit`. -/
def urlunsplit (scheme netloc path query fragment : String) : String :=
  let url := path
  let url :=
    if netloc ≠ "" || (url ≠ "" && pyStartsWith url "//") then
      let url := if url ≠ "" && !pyStartsWith url "/" then "/" ++ url else url
      "//" ++ netloc ++ url
    else url
  let url := if scheme ≠ "" then scheme ++ ":" ++ url else url
  let url := if query ≠ "" then url ++ "?" ++ query else url
  if fragment ≠ "" then url ++ "#" ++ fragment else url

/-- `urllib.parse.urlunparse`. -/
def urlunparse (scheme netloc path params query fragment : String) : String :=
  let url := if params ≠ "" then path ++ ";" ++ params else path
  urlunsplit scheme netloc url query fragment

/-- Resolve the `..` / `.` segments of a path, as the loop inside `urljoin`. -/
def resolveSegments : List String → List String → List String
  | acc, [] => acc.reverse
  | acc, seg :: rest =>
    if seg = ".." then
      resolveSegments (acc.drop 1) rest   -- resolved_path.pop(), IndexError ignored
    else if seg = "." then
      resolveSegments acc rest
    else
      resolveSegments (seg :: acc) rest

/-- `urllib.parse.urljoin(base, url)`. -/
def urljoin (base url : String) : Except String String := do
  if base = "" then return url
  if url = "" then return base
  let b ← urlparse base ""
  let u ← urlparse url b.scheme
  if u.scheme ≠ b.scheme || !usesRelative.contains u.scheme then
    return url
  let netloc ←
    if usesNetloc.contains u.scheme then
      if u.netloc ≠ "" then
        return urlunparse u.scheme u.netloc u.path u.params u.query u.fragment
      else pure b.netloc
    else pure u.netloc
  if u.path = "" && u.params = "" then
    let query := if u.query = "" then b.query else u.query
    return urlunparse u.scheme netloc b.path b.params query u.fragment
  let baseParts0 := pySplitChar b.path '/'
  let baseParts := if baseParts0.getLast? ≠ some "" then baseParts0.dropLast else baseParts0
  let segments :=
    if pyStartsWith u.path "/" then
      pySplitChar u.path '/'
    else
      -- segments[1:-1] = filter(None, segments[1:-1])
      let segs := baseParts ++ pySplitChar u.path '/'
      match segs with
      | [] => []
      | first :: rest =>
        match rest.getLast? with
        | none => [first]
        | some lastSeg => first :: ((rest.dropLast.filter (fun s => s ≠ "")) ++ [lastSeg])
  let resolved := resolveSegments [] segments
  let resolved :=
    if segments.getLast? = some "." || segments.getLast? = some ".." then
      resolved ++ [""]
    else resolved
  let joined := pyJoin "/" resolved
  let joined := if joined = "" then "/" else joined
  return urlunparse u.scheme netloc joined u.params u.query u.fragment

/-! ## HTML document model

The source hands raw HTML to an external parser (BeautifulSoup/lxml) and
works only with the resulting element tree.  The embedding takes that tree
as input: `Node` is a text node or an element with a name, an attribute
list and children.  `find_all` is depth-first document order, as in
BeautifulSoup. -/

mutual

inductive Node where
  | text (s : String)
  | elem (e : Element)

inductive Element where
  | mk (name : String) (attrs : List (String × String)) (children : List Node)

end

/-- A parsed document: the top-level sequence of nodes. -/
abbrev Soup := List Node

def Element.name : Element → String
  | .mk n _ _ => n

def Element.attrs : Element → List (String × String)
  | .mk _ a _ => a

def Element.children : Element → List Node
  | .mk _ _ c => c

/-- `element.get(key)`: the attribute value, `None` when absent. -/
def Element.get (e : Element) (k : String) : Option String :=
  (e.attrs.find? (fun p => p.1 = k)).map (fun p => p.2)

/-- `element.get(key, default)`. -/
def Element.getD (e : Element) (k d : String) : String :=
  (e.get k).getD d

/-- Attributes BeautifulSoup treats as whitespace-separated token lists. -/
def multiValuedAttrs : List String := ["class", "rel", "rev", "headers", "accept-charset"]

/-- The token list of a multi-valued attribute value. -/
def attrTokens (v : String) : List String :=
  (pySplitChar v ' ').filter (fun s => s ≠ "")

/-- BeautifulSoup matching of attribute `k` against the string `v`:
equality, except that multi-valued attributes match by token membership. -/
def Element.attrEq (e : Element) (k v : String) : Bool :=
  match e.get k with
  | none => false
  | some actual =>
    if multiValuedAttrs.contains k then (attrTokens actual).contains v
    else actual = v

/-- BeautifulSoup matching of attribute `k` against `True` (presence). -/
def Element.attrPresent (e : Element) (k : String) : Bool :=
  (e.get k).isSome

mutual

/-- All descendant elements satisfying `p`, in document (preorder) order:
`soup.find_all(...)` restricted to one node. -/
def nodeFindAll (p : Element → Bool) : Node → List Element
  | .text _ => []
  | .elem (.mk n a cs) =>
    (if p (.mk n a cs) then [Element.mk n a cs] else []) ++ forestFindAll p cs

def forestFindAll (p : Element → Bool) : List Node → List Element
  | [] => []
  | n :: ns => nodeFindAll p n ++ forestFindAll p ns

end

/-- `soup.find_all(...)`. -/
def soupFindAll (soup : Soup) (p : Element → Bool) : List Element :=
  forestFindAll p soup

/-- `soup.find(...)`: first match in document order. -/
def soupFind (soup : Soup) (p : Element → Bool) : Option Element :=
  (soupFindAll soup p).head?

mutual

/-- All text-node strings of a subtree, in document order (`_all_strings`). -/
def nodeStrings : Node → List String
  | .text s => [s]
  | .elem (.mk _ _ cs) => forestStrings cs

def forestStrings : List Node → List String
  | [] => []
  | n :: ns => nodeStrings n ++ forestStrings ns

end

/-- `element.get_text(strip=True)`: every descendant string stripped, empties
dropped, concatenated without separator. -/
def Element.getTextStrip (e : Element) : String :=
  String.join (((forestStrings e.children).map pyStrip).filter (fun s => s ≠ ""))

/-- `soup.stripped_strings`: stripped non-empty descendant strings in order. -/
def soupStrippedStrings (soup : Soup) : List String :=
  ((forestStrings soup).map pyStrip).filter (fun s => s ≠ "")

mutual

/-- Remove every element whose name is in `bad`, with its whole subtree
(`tag.decompose()` applied to all `soup(bad)` matches). -/
def nodeRemoveTags (bad : List String) : Node → List Node
  | .text s => [.text s]
  | .elem (.mk n a cs) =>
    if bad.contains n then []
    else [.elem (.mk n a (forestRemoveTags bad cs))]

def forestRemoveTags (bad : List String) : List Node → List Node
  | [] => []
  | n :: ns => nodeRemoveTags bad n ++ forestRemoveTags bad ns

end

/-- `tag.string`: the single string child, descending through a single
element child, otherwise `None`. -/
def Element.stringChild : Element → Option String
  | .mk _ _ [Node.text s] => some s
  | .mk _ _ [Node.elem e] => e.stringChild
  | .mk _ _ _ => none

/-! ## Structural Parser (`src/analyzer/parser.py`, class `WebParser`) -/

structure LinkDict where
  url : String
  text : String
  type : String
deriving Repr, DecidableEq

structure FieldDict where
  type : String
  name : String
  id : String
  required : Bool
deriving Repr, DecidableEq

structure FormDict where
  action : String
  method : String
  fields : List FieldDict
deriving Repr, DecidableEq

structure ImageDict where
  src : Option String
  alt : String
  title : String
  width : String
  height : String
deriving Repr, DecidableEq

structure ResourceCounts where
  total : Nat
  external : Nat
  inline : Nat
deriving Repr, DecidableEq

structure LandmarkDict where
  type : String
  role : String
  ariaLabel : String
deriving Repr, DecidableEq

structure ListCounts where
  ul : Nat
  ol : Nat
  dl : Nat
deriving Repr, DecidableEq

structure TableDict where
  has_caption : Bool
  has_headers : Bool
  rows : Nat
  cols : Nat
  has_scope : Bool
deriving Repr, DecidableEq

structure InputCounts where
  text : Nat
  password : Nat
  email : Nat
  checkbox : Nat
  radio : Nat
  submit : Nat
deriving Repr, DecidableEq

structure InteractiveDict where
  buttons : Nat
  inputs : InputCounts
  select : Nat
  textarea : Nat
  clickable : Nat
deriving Repr, DecidableEq

structure SeoDict where
  canonical : Bool
  h1_count : Nat
  meta_description : Bool
  meta_keywords : Bool
  img_alt_ratio : ℚ
deriving Repr, DecidableEq

structure SecurityDict where
  csrf_token : Bool
  external_links : Nat
  password_inputs : Nat
  forms_with_csrf : Nat
deriving Repr, DecidableEq

structure SocialDict where
  og_tags : List (String × Option String)
  twitter_tags : List (String × Option String)
deriving Repr, DecidableEq

/-- The dict returned by `WebParser.extract_page_structure`.  The Python
value is a dict with exactly these keys, so it is a structure here; the
`meta` sub-dict is kept as an ordered association list because the test
generator iterates over it and tests key membership in it. -/
structure PageStructureDict where
  title : Option String
  headings : List (String × List String)
  meta : List (String × Option String)
  images : List ImageDict
  scripts : ResourceCounts
  stylesheets : ResourceCounts
  language : Option String
  landmarks : List LandmarkDict
  lists : ListCounts
  tables : List TableDict
  interactive_elements : InteractiveDict
  seo_elements : SeoDict
  security_headers : SecurityDict
  social_meta : SocialDict
deriving Repr, DecidableEq

/-- `WebParser.__init__` precondition: raises `ValueError` when the HTML
content or the base URL is empty/None. -/
def webParserInitOk (htmlContent baseUrl : String) : Bool :=
  htmlContent ≠ "" && baseUrl ≠ ""

/-- `WebParser.extract_links`.  `urlparse(self.base_url)` runs outside any
`try`, so its failure propagates; a `urljoin` failure skips the anchor
(`continue`); a failure parsing the resolved URL defaults the type to
`'external'`. -/
def extractLinks (soup : Soup) (baseUrl : String) : Except String (List LinkDict) := do
  let baseParsed ← urlparse baseUrl ""
  let baseNetloc := baseParsed.netloc
  let anchors := soupFindAll soup (fun e => e.name = "a" && e.attrPresent "href")
  let links := anchors.filterMap (fun a =>
    let href := (a.get "href").getD ""
    if href = "" then none            -- `if not href: continue`
    else
      match urljoin baseUrl href with
      | .error _ => none              -- fallback: skip malformed URLs
      | .ok absoluteUrl =>
        let linkType :=
          match urlparse absoluteUrl "" with
          | .ok p => if p.netloc = baseNetloc then "internal" else "external"
          | .error _ => "external"
        some ⟨absoluteUrl, a.getTextStrip, linkType⟩)
  pure links

/-- `WebParser.extract_forms` (no `try` around `urljoin`: failures
propagate). -/
def extractForms (soup : Soup) (baseUrl : String) : Except String (List FormDict) := do
  let formElems := soupFindAll soup (fun e => e.name = "form")
  formElems.mapM (fun form => do
    let action ← urljoin baseUrl (form.getD "action" "")
    let method := String.mk ((form.getD "method" "get").toList.map Char.toUpper)
    let fieldElems := nodeFindAll
      (fun e => e.name = "input" || e.name = "textarea" || e.name = "select")
      (Node.elem form)
    -- `form.find_all` searches the form's subtree; the form element itself
    -- never has one of these names, so descendants only.
    let fields := fieldElems.filterMap (fun f =>
      if f.name = "form" then none else
      some (FieldDict.mk (f.getD "type" "text") (f.getD "name" "") (f.getD "id" "")
        (f.get "required").isSome))
    pure ⟨action, method, fields⟩)

/-- `soup.find('meta', {'name': n})`. -/
def findMetaNamed (soup : Soup) (n : String) : Option Element :=
  soupFind soup (fun e => e.name = "meta" && e.attrEq "name" n)

/-- One entry of the parser's `meta` dict: `tag.get('content', '')` when the
tag exists, `None` otherwise. -/
def metaEntry (soup : Soup) (n : String) : Option String :=
  (findMetaNamed soup n).map (fun e => e.getD "content" "")

/-- `WebParser._extract_landmarks`. -/
def extractLandmarks (soup : Soup) : List LandmarkDict :=
  let semanticElements := ["header", "nav", "main", "article", "aside", "footer", "section"]
  let fromSemantic := semanticElements.flatMap (fun tag =>
    (soupFindAll soup (fun e => e.name = tag)).map (fun e =>
      ⟨tag, e.getD "role" "", e.getD "aria-label" ""⟩))
  let roles := ["banner", "navigation", "main", "complementary", "contentinfo"]
  let fromRoles := roles.flatMap (fun role =>
    (soupFindAll soup (fun e => e.attrEq "role" role)).map (fun e =>
      ⟨e.name, role, e.getD "aria-label" ""⟩))
  fromSemantic ++ fromRoles

/-- `WebParser._analyze_tables`. -/
def analyzeTables (soup : Soup) : List TableDict :=
  (soupFindAll soup (fun e => e.name = "table")).map (fun table =>
    let sub := fun p => nodeFindAll p (Node.elem table)
    let trs := (sub (fun e => e.name = "tr")).length
    let tds := (sub (fun e => e.name = "td")).length
    ⟨!(sub (fun e => e.name = "caption")).isEmpty,
     !(sub (fun e => e.name = "th")).isEmpty,
     trs,
     if trs ≠ 0 then tds / trs else 0,
     !(sub (fun e => e.name = "th" && e.attrPresent "scope")).isEmpty⟩)

/-- `WebParser._extract_interactive_elements`.  The last member of the
`find_all` list for `clickable` is the dict `{'type': 'submit'}`, which is
not a valid name filter and matches nothing; only `a`, `button` and `input`
elements are counted. -/
def extractInteractiveElements (soup : Soup) : InteractiveDict :=
  let inputOfType := fun (t : String) =>
    (soupFindAll soup (fun e => e.name = "input" && e.attrEq "type" t)).length
  ⟨(soupFindAll soup (fun e => e.name = "button")).length,
   ⟨inputOfType "text", inputOfType "password", inputOfType "email",
    inputOfType "checkbox", inputOfType "radio", inputOfType "submit"⟩,
   (soupFindAll soup (fun e => e.name = "select")).length,
   (soupFindAll soup (fun e => e.name = "textarea")).length,
   (soupFindAll soup (fun e => e.name = "a" || e.name = "button" || e.name = "input")).length⟩

/-- `WebParser._extract_seo_elements`. -/
def extractSeoElements (soup : Soup) : SeoDict :=
  let imgs := soupFindAll soup (fun e => e.name = "img")
  ⟨(soupFind soup (fun e => e.name = "link" && e.attrEq "rel" "canonical")).isSome,
   (soupFindAll soup (fun e => e.name = "h1")).length,
   (findMetaNamed soup "description").isSome,
   (findMetaNamed soup "keywords").isSome,
   if imgs.isEmpty then 1
   else ((imgs.filter (fun img => pyTruthyStr (img.get "alt"))).length : ℚ) / (imgs.length : ℚ)⟩

/-- The CSRF-field name filter `{'name': ['csrf_token', '_token', '_csrf']}`
(a list value matches when the attribute equals any member). -/
def isCsrfInput (e : Element) : Bool :=
  e.name = "input" &&
    (e.attrEq "name" "csrf_token" || e.attrEq "name" "_token" || e.attrEq "name" "_csrf")

/-- `WebParser._extract_security_elements`; the `urlparse` calls in the
external-link comprehension run outside any `try`, so failures propagate. -/
def extractSecurityElements (soup : Soup) (baseUrl : String) : Except String SecurityDict := do
  let anchors := soupFindAll soup (fun e => e.name = "a" && e.attrPresent "href")
  let externalCount ← anchors.foldlM (fun (acc : Nat) a => do
    let href := (a.get "href").getD ""
    -- `isinstance(href, str)` always holds in this model
    if pyStartsWith href "http" then
      let hrefParsed ← urlparse href ""
      let baseParsed ← urlparse baseUrl ""
      pure (if hrefParsed.netloc ≠ baseParsed.netloc then acc + 1 else acc)
    else pure acc) 0
  pure ⟨(soupFind soup isCsrfInput).isSome,
    externalCount,
    (soupFindAll soup (fun e => e.name = "input" && e.attrEq "type" "password")).length,
    ((soupFindAll soup (fun e => e.name = "form")).filter (fun form =>
      !(nodeFindAll isCsrfInput (Node.elem form)).isEmpty)).length⟩

/-- Python dict building with later keys overriding earlier ones while the
first insertion keeps its position. -/
def pyDictInsert (d : List (String × Option String)) (k : String) (v : Option String) :
    List (String × Option String) :=
  if d.any (fun p => p.1 = k) then
    d.map (fun p => if p.1 = k then (k, v) else p)
  else d ++ [(k, v)]

def pyDictOfPairs (ps : List (String × Option String)) : List (String × Option String) :=
  ps.foldl (fun d p => pyDictInsert d p.1 p.2) []

/-- `WebParser._extract_social_meta`.  The `property`/`name` filters are
lambdas requiring a truthy value with the given prefix, so the dict keys are
the (present, non-empty) attribute values. -/
def extractSocialMeta (soup : Soup) : SocialDict :=
  let ogElems := soupFindAll soup (fun e =>
    e.name = "meta" && pyTruthyStr (e.get "property")
      && pyStartsWith ((e.get "property").getD "") "og:")
  let twElems := soupFindAll soup (fun e =>
    e.name = "meta" && pyTruthyStr (e.get "name")
      && pyStartsWith ((e.get "name").getD "") "twitter:")
  ⟨pyDictOfPairs (ogElems.map (fun e => (((e.get "property").getD ""), e.get "content"))),
   pyDictOfPairs (twElems.map (fun e => (((e.get "name").getD ""), e.get "content")))⟩

/-- `WebParser.extract_page_structure`. -/
def extractPageStructure (soup : Soup) (baseUrl : String) :
    Except String PageStructureDict := do
  let security ← extractSecurityElements soup baseUrl
  pure ⟨
    -- title
    (soupFind soup (fun e => e.name = "title")).bind Element.stringChild,
    -- headings h1..h6
    (List.range 6).map (fun i =>
      let tag := "h" ++ toString (i + 1)
      (tag, (soupFindAll soup (fun e => e.name = tag)).map Element.getTextStrip)),
    -- meta
    [("description", metaEntry soup "description"),
     ("keywords", metaEntry soup "keywords"),
     ("viewport", metaEntry soup "viewport"),
     ("charset", (soupFind soup (fun e => e.name = "meta" && e.attrPresent "charset")).map
        (fun e => e.getD "charset" "")),
     ("robots", metaEntry soup "robots")],
    -- images
    (soupFindAll soup (fun e => e.name = "img")).map (fun img =>
      ⟨img.get "src", img.getD "alt" "", img.getD "title" "",
       img.getD "width" "", img.getD "height" ""⟩),
    -- scripts
    ⟨(soupFindAll soup (fun e => e.name = "script")).length,
     (soupFindAll soup (fun e => e.name = "script" && e.attrPresent "src")).length,
     (soupFindAll soup (fun e => e.name = "script" && !e.attrPresent "src")).length⟩,
    -- stylesheets
    ⟨(soupFindAll soup (fun e => e.name = "link" && e.attrEq "rel" "stylesheet")).length,
     (soupFindAll soup (fun e =>
        e.name = "link" && e.attrEq "rel" "stylesheet" && e.attrPresent "href")).length,
     (soupFindAll soup (fun e => e.name = "style")).length⟩,
    -- language
    (soupFind soup (fun e => e.name = "html")).bind (fun e => e.get "lang"),
    extractLandmarks soup,
    ⟨(soupFindAll soup (fun e => e.name = "ul")).length,
     (soupFindAll soup (fun e => e.name = "ol")).length,
     (soupFindAll soup (fun e => e.name = "dl")).length⟩,
    analyzeTables soup,
    extractInteractiveElements soup,
    extractSeoElements soup,
    security,
    extractSocialMeta soup⟩

/-! ## Language Analyzer (`src/analyzer/language_analyzer.py`)

The external `langid` classifier (restricted by `set_languages` to the
`LANGUAGE_NAMES` keys) and the external `charset_normalizer` byte-level
detector are explicit function parameters: `classify text` returns the
detected `(code, confidence)` or an exception message, and `charsetDetect
content` models the expression `detect_charset(content.encode())['encoding']`
(whose value may be `None`, and which may raise). -/

/-- Python exceptions distinguished by the embedded code. -/
inductive PyErr where
  | keyError (k : String)
  | typeError
  | attributeError
deriving Repr, DecidableEq

/-- The module-level `LANGUAGE_NAMES` mapping: code ↦ (name, native). -/
def languageNames : List (String × String × String) :=
  [("en", "English", "English"), ("es", "Spanish", "Español"),
   ("fr", "French", "Français"), ("de", "German", "Deutsch"),
   ("it", "Italian", "Italiano"), ("pt", "Portuguese", "Português"),
   ("ru", "Russian", "Русский"), ("ja", "Japanese", "日本語"),
   ("ko", "Korean", "한국어"), ("zh", "Chinese", "中文"),
   ("ar", "Arabic", "العربية"), ("hi", "Hindi", "हिन्दी"),
   ("nl", "Dutch", "Nederlands"), ("pl", "Polish", "Polski"),
   ("tr", "Turkish", "Türkçe"), ("vi", "Vietnamese", "Tiếng Việt"),
   ("th", "Thai", "ไทย"), ("sv", "Swedish", "Svenska"),
   ("da", "Danish", "Dansk"), ("fi", "Finnish", "Suomi")]

/-- `LANGUAGE_NAMES.get(code)`. -/
def languageNamesGet (code : String) : Option (String × String) :=
  (languageNames.find? (fun p => p.1 = code)).map (fun p => p.2)

structure DeclaredDict where
  code : String
  name : Option String
  native_name : Option String
deriving Repr, DecidableEq

structure DetectedDict where
  code : String
  name : String
  native_name : String
  confidence : ℚ
deriving Repr, DecidableEq

structure OtherLangDict where
  code : String
  name : String
  native : String
  count : Nat
  confidence : ℚ
deriving Repr, DecidableEq

structure LangAttrEntry where
  tag : String
  lang : String
deriving Repr, DecidableEq

structure DirAttrEntry where
  tag : String
  dir : String
deriving Repr, DecidableEq

structure AlternateLinkEntry where
  href : String
  hreflang : String
deriving Repr, DecidableEq

structure MultilingualMetaDict where
  alternate_links : List AlternateLinkEntry
  content_language : Option String
deriving Repr, DecidableEq

structure TranslationLinkEntry where
  text : String
  href : String
  lang : String
deriving Repr, DecidableEq

structure LangElemsDict where
  lang_attributes : List LangAttrEntry
  dir_attributes : List DirAttrEntry
  multilingual_meta : MultilingualMetaDict
  translation_links : List TranslationLinkEntry
deriving Repr, DecidableEq

/-- The dict returned by `LanguageAnalyzer.analyze_language`.  The three
result shapes of the source populate different key subsets, so every
top-level key is optional (`none` = key absent); `declared_language`,
`detected_language` and `charset` may also be present with value `None`. -/
structure LangAnalysisDict where
  error : Option String
  declared_language : Option (Option DeclaredDict)
  detected_language : Option (Option DetectedDict)
  other_languages : Option (List OtherLangDict)
  direction : Option String
  language_elements : Option LangElemsDict
  charset : Option (Option String)
  locale_info : Option (List (String × String))
deriving Repr, DecidableEq

/-- `element[key]` (subscript): `KeyError` when the attribute is absent. -/
def pySubscriptAttr (e : Element) (k : String) : Except PyErr String :=
  match e.get k with
  | some v => .ok v
  | none => .error (.keyError k)

/-- `LanguageAnalyzer._find_lang_attributes`. -/
def findLangAttributes (soup : Soup) : List LangAttrEntry :=
  (soupFindAll soup (fun e => e.attrPresent "lang")).map (fun e =>
    ⟨e.name, (e.get "lang").getD ""⟩)

/-- `LanguageAnalyzer._find_dir_attributes`. -/
def findDirAttributes (soup : Soup) : List DirAttrEntry :=
  (soupFindAll soup (fun e => e.attrPresent "dir")).map (fun e =>
    ⟨e.name, (e.get "dir").getD ""⟩)

/-- `LanguageAnalyzer._find_multilingual_meta`; the `link['href']` subscript
can raise `KeyError` (an `alternate` link with `hreflang` but no `href`). -/
def findMultilingualMeta (soup : Soup) : Except PyErr MultilingualMetaDict := do
  let links := soupFindAll soup (fun e =>
    e.name = "link" && e.attrEq "rel" "alternate" && e.attrPresent "hreflang")
  let alternates ← links.mapM (fun l => do
    let href ← pySubscriptAttr l "href"
    let hl ← pySubscriptAttr l "hreflang"
    pure (AlternateLinkEntry.mk href hl))
  let contentLang ←
    match soupFind soup (fun e =>
        e.name = "meta" && e.attrEq "http-equiv" "content-language") with
    | none => pure none
    | some m => (pySubscriptAttr m "content").map some
  pure ⟨alternates, contentLang⟩

/-- `re.search(r'lang|language|translate', s, re.I)`: since `language`
contains `lang`, the search succeeds iff `s` contains `lang` or `translate`
case-insensitively. -/
def regexLangSearch (s : String) : Bool :=
  pyIn "lang" (pyLower s) || pyIn "translate" (pyLower s)

/-- Match of `[?&]lang=|/[a-z]{2}(?:-[A-Z]{2})?/` (with `re.I`) anchored at
the head of the character list. -/
def hrefPatternAt (l : List Char) : Bool :=
  (match l with
   | c :: rest => (c = '?' || c = '&') && listStartsWith (rest.map Char.toLower) "lang=".toList
   | [] => false)
  ||
  (match l with
   | '/' :: a :: b :: rest =>
     a.isAlpha && b.isAlpha &&
       (match rest with
        | '/' :: _ => true
        | '-' :: c :: d :: '/' :: _ => c.isAlpha && d.isAlpha
        | _ => false)
   | _ => false)

def regexHrefSearchAux : List Char → Bool
  | [] => false
  | l@(_ :: t) => hrefPatternAt l || regexHrefSearchAux t

/-- `re.search(r'[?&]lang=|/[a-z]{2}(?:-[A-Z]{2})?/', s, re.I)`. -/
def regexHrefSearch (s : String) : Bool :=
  regexHrefSearchAux s.toList

/-- `LanguageAnalyzer._find_translation_links`.  The first pattern passes
`{'class_': regex}` as an attrs dict, so it filters on an attribute
literally named `class_` (the `class_` → `class` aliasing only applies to
keyword arguments), which real HTML never has. -/
def findTranslationLinks (soup : Soup) : List TranslationLinkEntry :=
  let byAttr := fun (attr : String) (search : String → Bool) =>
    soupFindAll soup (fun e =>
      e.name = "a" && (match e.get attr with
        | some v => search v
        | none => false))
  let found :=
    byAttr "class_" regexLangSearch ++ byAttr "id" regexLangSearch
      ++ byAttr "href" regexHrefSearch
  found.map (fun l => ⟨l.getTextStrip, l.getD "href" "", l.getD "hreflang" ""⟩)

/-- The empty-element fallback returned by `_analyze_language_elements` on
failure. -/
def emptyLangElems : LangElemsDict :=
  ⟨[], [], ⟨[], none⟩, []⟩

/-- `LanguageAnalyzer._analyze_language_elements`: the four extractions,
with any exception (only `_find_multilingual_meta` can raise) converted to
the empty-element dict. -/
def analyzeLanguageElements (soup : Soup) : LangElemsDict :=
  match findMultilingualMeta soup with
  | .error _ => emptyLangElems
  | .ok mm =>
    ⟨findLangAttributes soup, findDirAttributes soup, mm, findTranslationLinks soup⟩

/-- `LanguageAnalyzer._detect_charset`: the detector's `encoding` value
(possibly `None`), with any exception defaulted to `'utf-8'`. -/
def detectCharsetPy (charsetDetect : String → Except Unit (Option String))
    (content : String) : Option String :=
  match charsetDetect content with
  | .ok enc => enc
  | .error _ => some "utf-8"

/-- `LanguageAnalyzer._extract_text_content`: drop script/style/code/pre
subtrees, join the stripped strings with spaces, collapse whitespace, strip. -/
def extractTextContent (soup : Soup) : String :=
  let cleaned := forestRemoveTags ["script", "style", "code", "pre"] soup
  let text := pyJoin " " (soupStrippedStrings cleaned)
  pyStrip (String.mk (collapseWs text.toList))

/-- `LanguageAnalyzer._is_rtl_language`. -/
def isRtlLanguage (langCode : String) : Bool :=
  ["ar", "fa", "he", "ur", "arc", "az", "dv", "ku", "nqo"].contains langCode

/-- `counts.setdefault(lang, []).append(conf)`. -/
def countsAppend (counts : List (String × List ℚ)) (lang : String) (conf : ℚ) :
    List (String × List ℚ) :=
  if counts.any (fun p => p.1 = lang) then
    counts.map (fun p => if p.1 = lang then (p.1, p.2 ++ [conf]) else p)
  else counts ++ [(lang, [conf])]

/-- `LanguageAnalyzer._detect_other_languages` (with `chunks = 8`). -/
def detectOtherLanguages (classify : String → Except String (String × ℚ))
    (text : String) (primaryLang : String) : List OtherLangDict :=
  if text = "" || text.length < 50 then []
  else
    let length := text.length
    let step := max 1 (length / 8)
    -- range(0, length, step)
    let idxs := (List.range ((length + step - 1) / step)).map (fun k => k * step)
    let counts := idxs.foldl (fun counts i =>
      let sample := pyStrip (String.mk ((text.toList.drop i).take step))
      if sample = "" then counts
      else
        match classify sample with
        | .error _ => counts           -- chunk classification failures skipped
        | .ok (lang, conf) =>
          if lang = primaryLang then counts
          else countsAppend counts lang conf) []
    let results := counts.map (fun p =>
      let confs := p.2
      let avgConf : ℚ := if confs.length ≠ 0 then confs.sum / (confs.length : ℚ) else 0
      let info := (languageNamesGet p.1).getD ("Unknown", "Unknown")
      OtherLangDict.mk p.1 info.1 info.2 confs.length avgConf)
    -- results.sort(key=lambda r: (r['count'], r['confidence']), reverse=True)
    results.mergeSort (fun a b =>
      b.count < a.count || (a.count = b.count && b.confidence ≤ a.confidence))

/-- `declared_lang.split('-')[0]`. -/
def primarySubtag (s : String) : String :=
  ((pySplitChar s '-').head?).getD ""

/-- `html_tag = soup.find('html'); declared_lang = html_tag.get('lang', '')
if html_tag else ''`. -/
def declaredLangOf (soup : Soup) : String :=
  match soupFind soup (fun e => e.name = "html") with
  | some e => e.getD "lang" ""
  | none => ""

/-- `LanguageAnalyzer.analyze_language` on a parsed document.  The
`ValueError` raises for a `None`/non-string argument cannot arise in this
embedding (the content is a `String`); every other failure is converted to
a partial result by the source's handlers, so the function is total. -/
def analyzeLanguage (classify : String → Except String (String × ℚ))
    (charsetDetect : String → Except Unit (Option String))
    (soup : Soup) (htmlContent : String) : LangAnalysisDict :=
  let declaredLang := declaredLangOf soup
  let textContent := extractTextContent soup
  if textContent = "" || (pyStrip textContent).length < 10 then
    -- insufficient text: short-circuit partial result
    ⟨some "Insufficient text content for language analysis",
     some (if declaredLang ≠ "" then some ⟨declaredLang, none, none⟩ else none),
     some none,
     some [],
     some "ltr",
     some (analyzeLanguageElements soup),
     some (detectCharsetPy charsetDetect htmlContent),
     none⟩
  else
    match classify textContent with
    | .error msg =>
      -- `except Exception` branch: only the error and declared_language keys
      ⟨some ("Language detection failed: " ++ msg),
       some (if declaredLang ≠ "" then some ⟨declaredLang, none, none⟩ else none),
       none, none, none, none, none, none⟩
    | .ok (detectedLang, confidence) =>
      let langInfo := (languageNamesGet detectedLang).getD ("Unknown", "Unknown")
      let otherLangs := detectOtherLanguages classify textContent detectedLang
      ⟨none,
       some (some ⟨declaredLang,
         some (if declaredLang ≠ "" then
             ((languageNamesGet (primarySubtag declaredLang)).map Prod.fst).getD "Not declared"
           else "Not declared"),
         some (if declaredLang ≠ "" then
             ((languageNamesGet (primarySubtag declaredLang)).map (fun p => p.2)).getD "Not declared"
           else "Not declared")⟩),
       some (some ⟨detectedLang, langInfo.1, langInfo.2, confidence⟩),
       some otherLangs,
       some (if isRtlLanguage detectedLang then "rtl" else "ltr"),
       some (analyzeLanguageElements soup),
       some (detectCharsetPy charsetDetect htmlContent),
       none⟩

/-! ## Fetcher (`src/analyzer/crawler.py`)

The network is a parameter: `env i` is the outcome of the `i`-th
`session.get` call the function makes, and `head url` the outcome of a
`session.head(url, ...)` call.  Exception classes follow
`requests.exceptions`: `SSLError` and `ConnectTimeout` are subclasses of
`ConnectionError`, `ConnectTimeout` and `ReadTimeout` of `Timeout`, and
everything of `RequestException`.  Python tries `except` clauses in source
order and takes the first whose class matches. -/

/-- Concrete exception kinds raised by `requests`. -/
inductive ReqExcKind where
  | readTimeout
  | connectTimeout
  | connectionError
  | sslError
  | httpError (status : Nat)
  | otherRequestException
deriving Repr, DecidableEq

/-- `isinstance(e, Timeout)`. -/
def isTimeoutExc : ReqExcKind → Bool
  | .readTimeout => true
  | .connectTimeout => true
  | _ => false

/-- `isinstance(e, ConnectionError)` (includes `SSLError`, `ConnectTimeout`). -/
def isConnectionErrorExc : ReqExcKind → Bool
  | .connectionError => true
  | .connectTimeout => true
  | .sslError => true
  | _ => false

/-- `isinstance(e, SSLError)`. -/
def isSSLErrorExc : ReqExcKind → Bool
  | .sslError => true
  | _ => false

/-- A successful HTTP response to `session.get`. -/
structure HttpResponse where
  text : String
  status : Nat
deriving Repr, DecidableEq

/-- Parameters of one `session.get` call made by the fetcher. -/
structure CallRec where
  url : String
  connectTimeout : ℚ
  readTimeout : ℚ
  verify : Bool
deriving Repr, DecidableEq

/-- One `session.get(...)` followed by `response.raise_for_status()`:
a 4xx/5xx status raises `HTTPError`. -/
def attemptGet (env : Nat → Except ReqExcKind HttpResponse) (idx : Nat) :
    Except ReqExcKind String :=
  match env idx with
  | .error e => .error e
  | .ok r =>
    if 400 ≤ r.status && r.status < 600 then .error (.httpError r.status)
    else .ok r.text

/-- `WebCrawler.fetch_website_content`, returning the result together with
the `session.get` calls issued (their url, timeouts, `verify` flag).
Clause order matters: `except Timeout`, then `except ConnectionError`,
then `except SSLError`, then `except RequestException`. -/
def fetchWebsiteContent (env : Nat → Except ReqExcKind HttpResponse)
    (url : String) (connectTimeout readTimeout : ℚ) :
    Except ReqExcKind String × List CallRec :=
  let c0 : CallRec := ⟨url, connectTimeout, readTimeout, true⟩
  match attemptGet env 0 with
  | .ok t => (.ok t, [c0])
  | .error e =>
    if isTimeoutExc e then
      -- retry with extended timeout; any retry exception is re-raised as is
      let c1 : CallRec := ⟨url, connectTimeout, readTimeout * 2, true⟩
      (attemptGet env 1, [c0, c1])
    else if isConnectionErrorExc e then
      (.error e, [c0])
    else if isSSLErrorExc e then
      -- unreachable: every SSLError already matches the ConnectionError clause
      let c1 : CallRec := ⟨url, connectTimeout, readTimeout, false⟩
      (attemptGet env 1, [c0, c1])
    else
      -- `except RequestException: raise` (every kind here is one)
      (.error e, [c0])

/-- A successful HTTP response to `session.head(..., allow_redirects=True)`. -/
structure HeadResponse where
  status : Nat
  finalUrl : String
  history : Bool
deriving Repr, DecidableEq

/-- The dict built by `WebCrawler.check_link_accessibility` (and the shape
the test generator consumes): absent keys are `none`. -/
structure LinkCheckDict where
  url : String
  status_code : Option Int
  is_accessible : Bool
  redirect_url : Option String
  error : Option String
deriving Repr, DecidableEq

/-- `WebCrawler.check_link_accessibility`.  `head u` models
`session.head(u, timeout=5, allow_redirects=True)`; a failure carries
`str(e)` of the `RequestException`.  Only `RequestException` is caught:
a `ValueError` raised by `urljoin` propagates (`Except.error`). -/
def checkLinkAccessibility (head : String → Except String HeadResponse)
    (baseUrl url : String) : Except String LinkCheckDict :=
  match urljoin baseUrl url with
  | .error e => .error e
  | .ok absoluteUrl =>
    match head absoluteUrl with
    | .ok r =>
      .ok ⟨absoluteUrl, some (r.status : Int),
        200 ≤ r.status && r.status < 400,
        if r.history then some r.finalUrl else none,
        none⟩
    | .error msg =>
      .ok ⟨absoluteUrl, none, false, none, some msg⟩

/-- The module-level compatibility wrapper `fetch_website_content`:
builds a crawler, fetches, then prepends the literal `'<html>'` marker when
the text does not already contain it. -/
def fetchWebsiteContentModule (env : Nat → Except ReqExcKind HttpResponse)
    (url : String) (connectTimeout readTimeout : ℚ) :
    Except ReqExcKind String × List CallRec :=
  match fetchWebsiteContent env url connectTimeout readTimeout with
  | (.ok text, calls) =>
    (.ok (if pyIn "<html>" text then text else "<html>" ++ text), calls)
  | (.error e, calls) => (.error e, calls)

/-! ## Test-Case Synthesizer (`src/analyzer/test_generator.py`)

`TestCaseGenerator` holds the list of produced test cases and the id
counter.  Every public `generate_*` method of the source only mutates the
instance through `add_test_case`, and no argument of any `add_test_case`
call depends on the instance state; each method is therefore embedded as
`applyAdds` of a pure argument list computed from its inputs (the list
preserves the source's call order, including the cut-off point when an
expression inside `generate_language_test_cases` raises). -/

/-- One test-case record.  The Lean field names stand for the dict keys
`TC_ID`, `Test Case Description`, `Test Step`, `Expected Result`,
`Actual Result`, `Status`. -/
structure TestCaseDict where
  TC_ID : String
  description : String
  test_step : String
  expected_result : String
  actual_result : String
  status : String
deriving Repr, DecidableEq

/-- The five arguments of one `add_test_case` call. -/
structure AddArgs where
  description : String
  test_step : String
  expected_result : String
  actual_result : String
  status : String
deriving Repr, DecidableEq

structure TestCaseGenerator where
  test_cases : List TestCaseDict
  tc_counter : Nat
deriving Repr, DecidableEq

/-- `TestCaseGenerator.__init__`. -/
def freshGenerator : TestCaseGenerator := ⟨[], 1⟩

/-- `f'TC_{counter:03d}'`: zero-padded to (at least) three digits. -/
def tcIdFormat (n : Nat) : String :=
  "TC_" ++ zfill 3 (toString n)

/-- `TestCaseGenerator.add_test_case`. -/
def addTestCase (g : TestCaseGenerator) (a : AddArgs) : TestCaseGenerator :=
  ⟨g.test_cases ++
     [⟨tcIdFormat g.tc_counter, a.description, a.test_step, a.expected_result,
       a.actual_result, a.status⟩],
   g.tc_counter + 1⟩

/-- A sequence of `add_test_case` calls. -/
def applyAdds (g : TestCaseGenerator) (args : List AddArgs) : TestCaseGenerator :=
  args.foldl addTestCase g

/-- Python `str.upper` (ASCII). -/
def pyUpper (s : String) : String :=
  String.mk (s.toList.map Char.toUpper)

/-- The `add_test_case` calls of `generate_link_test_cases` (two per
`zip(links, link_checks)` pair). -/
def linkTestArgs (links : List LinkDict) (checks : List LinkCheckDict) : List AddArgs :=
  (links.zip checks).flatMap (fun p =>
    let link := p.1
    let check := p.2
    [⟨"Verify presence of link: " ++ link.text,
      "Check if link with text \x27" ++ link.text ++ "\x27 exists",
      "Link should be present in the page",
      "Link is present",
      "Pass"⟩,
     ⟨"Verify accessibility of link: " ++ link.text,
      "Try to access URL: " ++ link.url,
      "Link should be accessible with 2xx/3xx status code",
      (if check.is_accessible then
         "Link is accessible with status code " ++ pyStrOfOptInt check.status_code
       else
         "Link is not accessible: " ++
           (check.error.getD ("Status code: " ++ pyStrOfOptInt check.status_code))),
      if check.is_accessible then "Pass" else "Fail"⟩])

def generateLinkTestCases (links : List LinkDict) (checks : List LinkCheckDict)
    (g : TestCaseGenerator) : TestCaseGenerator :=
  applyAdds g (linkTestArgs links checks)

/-- The `add_test_case` calls of `generate_form_test_cases`
(`enumerate(forms, 1)`). -/
def formTestArgs (forms : List FormDict) : List AddArgs :=
  forms.enum.flatMap (fun p =>
    let n := toString (p.1 + 1)
    let form := p.2
    let requiredFields := form.fields.filter (fun f => f.required)
    [⟨"Verify presence of form #" ++ n,
      "Check if form with action \x27" ++ form.action ++ "\x27 exists",
      "Form should be present in the page",
      "Form is present",
      "Pass"⟩] ++
    (if requiredFields.isEmpty then [] else
      [⟨"Verify required fields in form #" ++ n,
        "Check if required fields are properly marked",
        "Fields " ++ pyJoin ", " (requiredFields.map (fun f => f.name)) ++
          " should be required",
        "All required fields are properly marked",
        "Pass"⟩]) ++
    [⟨"Verify form #" ++ n ++ " submission endpoint",
      "Check if form action URL \x27" ++ form.action ++ "\x27 is valid",
      "Form action URL should be valid",
      "Form action URL is " ++ (if form.action ≠ "" then "valid" else "missing"),
      if form.action ≠ "" then "Pass" else "Fail"⟩])

def generateFormTestCases (forms : List FormDict) (g : TestCaseGenerator) :
    TestCaseGenerator :=
  applyAdds g (formTestArgs forms)

/-- `meta.get('viewport') or ''`. -/
def metaGetOrEmpty (meta : List (String × Option String)) (k : String) : String :=
  match meta.find? (fun p => p.1 = k) with
  | none => ""
  | some p => p.2.getD ""

/-- The `add_test_case` calls of `generate_structure_test_cases`.  The
parser's structure dict always carries the `title`, `tables`,
`interactive_elements`, `seo_elements`, `security_headers` and
`social_meta` keys and non-empty `scripts`/`stylesheets` sub-dicts, so the
source's `in`/truthiness guards on them always hold in this embedding;
the guards on the `meta` sub-dict are kept, since its values vary. -/
def structureTestArgs (st : PageStructureDict) : List AddArgs :=
  -- title
  [⟨"Verify page title",
    "Check if page has a title",
    "Page should have a title",
    "Page title is \x27" ++ pyStrOfOptStr st.title ++ "\x27",
    if pyTruthyStr st.title then "Pass" else "Fail"⟩] ++
  -- one test per meta mapping entry, in insertion order
  st.meta.map (fun p =>
    ⟨"Verify meta " ++ p.1,
     "Check if page has meta " ++ p.1,
     "Page should have meta " ++ p.1,
     "Meta " ++ p.1 ++ " is " ++ (if pyTruthyStr p.2 then "present" else "missing"),
     if pyTruthyStr p.2 then "Pass" else "Fail"⟩) ++
  -- viewport responsiveness test, generated iff the key is in the meta dict
  (if st.meta.any (fun p => p.1 = "viewport") then
    [⟨"Verify responsive design meta tag",
      "Check if page has viewport meta tag",
      "Page should have viewport meta tag for responsiveness",
      "Viewport meta tag is present: " ++
        pyStrOfOptStr (((st.meta.find? (fun p => p.1 = "viewport")).map
          (fun p => p.2)).join),
      if pyIn "width=device-width" (metaGetOrEmpty st.meta "viewport")
      then "Pass" else "Fail"⟩]
   else []) ++
  -- _generate_resource_test_cases
  [⟨"Verify script loading",
    "Check script inclusion",
    "Page should load all required scripts",
    "Found " ++ toString st.scripts.total ++ " scripts (" ++
      toString st.scripts.external ++ " external, " ++
      toString st.scripts.inline ++ " inline)",
    if st.scripts.total > 0 then "Pass" else "Fail"⟩,
   ⟨"Verify stylesheet loading",
    "Check stylesheet inclusion",
    "Page should load all required stylesheets",
    "Found " ++ toString st.stylesheets.total ++ " stylesheets (" ++
      toString st.stylesheets.external ++ " external, " ++
      toString st.stylesheets.inline ++ " inline)",
    if st.stylesheets.total > 0 then "Pass" else "Fail"⟩] ++
  -- _generate_table_test_cases
  st.tables.enum.map (fun p =>
    let table := p.2
    ⟨"Verify table #" ++ toString (p.1 + 1) ++ " accessibility",
     "Check table structure and accessibility features",
     "Table should have proper headers and structure",
     "Table has " ++ toString table.rows ++ " rows, " ++ toString table.cols ++
       " columns, " ++ (if table.has_headers then "has" else "lacks") ++
       " headers, " ++ (if table.has_caption then "has" else "lacks") ++ " caption",
     if table.has_headers && table.has_caption then "Pass" else "Warning"⟩) ++
  -- _generate_interactive_element_test_cases
  (let ie := st.interactive_elements
   let totalInputs := ie.inputs.text + ie.inputs.password + ie.inputs.email +
     ie.inputs.checkbox + ie.inputs.radio + ie.inputs.submit
   [⟨"Verify form elements presence",
     "Check presence of interactive elements",
     "Page should have necessary interactive elements",
     "Found " ++ toString ie.buttons ++ " buttons, " ++ toString totalInputs ++
       " input fields, " ++ toString ie.select ++ " select dropdowns, " ++
       toString ie.textarea ++ " text areas",
     if totalInputs > 0 then "Pass" else "Info"⟩]) ++
  -- _generate_seo_test_cases
  (let seo := st.seo_elements
   [⟨"Verify SEO basics",
     "Check basic SEO elements",
     "Page should have basic SEO elements",
     (if seo.canonical then "Has" else "Missing") ++ " canonical link, " ++
       (if seo.meta_description then "Has" else "Missing") ++
       " meta description, Image alt text ratio: " ++
       pyFormatPercent 0 seo.img_alt_ratio,
     if seo.canonical && seo.meta_description && seo.img_alt_ratio > 4/5
     then "Pass" else "Warning"⟩]) ++
  -- _generate_security_test_cases
  (let sec := st.security_headers
   [⟨"Verify security measures",
     "Check security features",
     "Page should implement basic security measures",
     "CSRF protection: " ++ (if sec.csrf_token then "Present" else "Missing") ++
       ", External links: " ++ toString sec.external_links ++
       ", Password fields: " ++ toString sec.password_inputs,
     if sec.csrf_token || sec.password_inputs = 0 then "Pass" else "Warning"⟩]) ++
  -- _generate_social_media_test_cases
  (let social := st.social_meta
   [⟨"Verify social media metadata",
     "Check social media meta tags",
     "Page should have social media meta tags",
     "OpenGraph tags: " ++ toString social.og_tags.length ++
       ", Twitter cards: " ++ toString social.twitter_tags.length,
     if !social.og_tags.isEmpty || !social.twitter_tags.isEmpty
     then "Pass" else "Info"⟩])

def generateStructureTestCases (st : PageStructureDict) (g : TestCaseGenerator) :
    TestCaseGenerator :=
  applyAdds g (structureTestArgs st)

/-- The `add_test_case` calls of `generate_accessibility_test_cases`. -/
def accessibilityTestArgs (st : PageStructureDict) : List AddArgs :=
  let imagesWithoutAlt := st.images.filter (fun img => img.alt = "")
  let h1s := ((st.headings.find? (fun p => p.1 = "h1")).map (fun p => p.2)).getD []
  [⟨"Verify image alt texts",
    "Check if all images have alt text",
    "All images should have alt text",
    (if imagesWithoutAlt.isEmpty then "All images have alt text"
     else toString imagesWithoutAlt.length ++ " images missing alt text"),
    if imagesWithoutAlt.isEmpty then "Pass" else "Fail"⟩,
   ⟨"Verify heading hierarchy",
    "Check if page has proper heading structure starting with H1",
    "Page should have at least one H1 heading",
    (if h1s.length > 0 then "Found H1 heading" else "No H1 heading found"),
    if h1s.length > 0 then "Pass" else "Fail"⟩,
   ⟨"Check for multiple H1 headings",
    "Verify page has only one main H1 heading",
    "Page should have only one H1 heading",
    "Found " ++ toString h1s.length ++ " H1 heading(s)",
    if !(h1s.length > 1) then "Pass" else "Fail"⟩,
   -- 'landmarks' is always a key of the parser's structure dict
   ⟨"Verify ARIA landmarks",
    "Check for presence of ARIA landmarks",
    "Page should have proper ARIA landmarks",
    "Found " ++ toString st.landmarks.length ++ " ARIA landmarks",
    if !st.landmarks.isEmpty then "Pass" else "Fail"⟩]

def generateAccessibilityTestCases (st : PageStructureDict) (g : TestCaseGenerator) :
    TestCaseGenerator :=
  applyAdds g (accessibilityTestArgs st)

/-- `locale_info.get(k, d)`. -/
def localeGet (locale : List (String × String)) (k d : String) : String :=
  ((locale.find? (fun p => p.1 = k)).map (fun p => p.2)).getD d

/-- The `add_test_case` calls of `generate_language_test_cases`, together
with the exception that interrupts them (`none` when the method completes).
The returned list contains exactly the calls made before the raise, in
source order; every dict access of the source is modelled at its evaluation
point. -/
def languageTestArgs (d : LangAnalysisDict) : List AddArgs × Option PyErr :=
  match d.declared_language with
  | none => ([], some (.keyError "declared_language"))   -- language_analysis['declared_language']
  | some declaredO =>
    match d.detected_language with
    | none => ([], some (.keyError "detected_language")) -- language_analysis['detected_language']
    | some detectedO =>
      match declaredO with
      | none => ([], some .typeError)                    -- declared['code'] with declared = None
      | some dd =>
        let dcode := dd.code
        let actual1 : Except PyErr String :=
          if dcode ≠ "" then
            match dd.name with
            | none => .error (.keyError "name")          -- declared['name']
            | some n => .ok ("Declared language: " ++ n ++ " (" ++ dcode ++ ")")
          else .ok "No language declaration found"
        match actual1 with
        | .error e => ([], some e)
        | .ok actual1 =>
          let add1 : AddArgs :=
            ⟨"Verify HTML language declaration",
             "Check if page has proper language declaration",
             "Page should have valid language declaration",
             actual1,
             if dcode ≠ "" then "Pass" else "Fail"⟩
          match detectedO with
          | none => ([add1], some .typeError)            -- detected['name'] with detected = None
          | some det =>
            let add2 : AddArgs :=
              ⟨"Verify content language",
               "Detect main content language",
               "Content language should be detectable",
               "Detected language: " ++ det.name ++ " (" ++ det.code ++ ") with " ++
                 pyFormatPercent 1 det.confidence ++ " confidence",
               if det.confidence > 4/5 then "Pass" else "Warning"⟩
            let consistencyAdds : List AddArgs :=
              if dcode ≠ "" && det.code ≠ "" then
                -- declared['name'] is present here: test 1 already accessed it
                [⟨"Verify language consistency",
                  "Compare declared vs detected language",
                  "Declared language should match content language",
                  "Declared: " ++ (dd.name).getD "" ++ " (" ++ dcode ++ "), Detected: " ++
                    det.name ++ " (" ++ det.code ++ ")",
                  if primarySubtag dcode = det.code then "Pass" else "Fail"⟩]
              else []
            match d.other_languages with
            | none => ([add1, add2] ++ consistencyAdds, some (.keyError "other_languages"))
            | some otherLangs =>
              let multiAdds : List AddArgs :=
                if !otherLangs.isEmpty then
                  [⟨"Check multi-language content",
                    "Analyze content for multiple languages",
                    "Document should consistently use declared language",
                    "Found content in other languages: " ++
                      pyJoin ", " (otherLangs.map (fun lang =>
                        lang.name ++ " (" ++ pyFormatPercent 1 lang.confidence ++ ")")),
                    "Info"⟩]
                else []
              match d.direction with
              | none =>
                ([add1, add2] ++ consistencyAdds ++ multiAdds,
                 some (.keyError "direction"))           -- language_analysis['direction']
              | some direction =>
                let add5 : AddArgs :=
                  ⟨"Verify text direction",
                   "Check if text direction is appropriate for the language",
                   "Text direction should match language requirements",
                   "Text direction is " ++ pyUpper direction,
                   "Pass"⟩
                -- charset = language_analysis.get('charset', 'utf-8')
                let charsetVal : Option String :=
                  match d.charset with
                  | none => some "utf-8"
                  | some v => v
                match charsetVal with
                | none =>
                  -- charset.lower() with charset = None
                  ([add1, add2] ++ consistencyAdds ++ multiAdds ++ [add5],
                   some .attributeError)
                | some charset =>
                  let add6 : AddArgs :=
                    ⟨"Verify character encoding",
                     "Check character encoding declaration",
                     "Page should use UTF-8 or appropriate encoding",
                     "Character encoding: " ++ charset,
                     if pyLower charset = "utf-8" || pyLower charset = "utf8"
                     then "Pass" else "Warning"⟩
                  -- elements = language_analysis.get('language_elements', {})
                  let langAttrs :=
                    match d.language_elements with
                    | none => []
                    | some e => e.lang_attributes
                  let add7 : AddArgs :=
                    ⟨"Check language annotations",
                     "Verify language attributes on elements",
                     "Multi-language content should be properly marked",
                     "Found " ++ toString langAttrs.length ++
                       " elements with language attributes",
                     if langAttrs.length > 0 || otherLangs.isEmpty
                     then "Pass" else "Warning"⟩
                  let translationLinks :=
                    match d.language_elements with
                    | none => []
                    | some e => e.translation_links
                  let transAdds : List AddArgs :=
                    if !translationLinks.isEmpty then
                      [⟨"Check translation support",
                        "Verify language switching options",
                        "Multi-language sites should offer language selection",
                        "Found " ++ toString translationLinks.length ++
                          " language switcher links",
                        if translationLinks.length > 0 then "Pass" else "Info"⟩]
                    else []
                  -- locale_info = language_analysis.get('locale_info', {})
                  let localeInfo := (d.locale_info).getD []
                  let localeAdds : List AddArgs :=
                    if !localeInfo.isEmpty then
                      [⟨"Verify locale information",
                        "Check locale-specific content",
                        "Content should be properly localized",
                        "Language: " ++ localeGet localeInfo "language_name" "Unknown" ++
                          ", Territory: " ++ localeGet localeInfo "territory" "Not specified" ++
                          ", Script: " ++ localeGet localeInfo "script" "Not specified",
                        "Info"⟩]
                    else []
                  ([add1, add2] ++ consistencyAdds ++ multiAdds ++ [add5, add6, add7] ++
                     transAdds ++ localeAdds,
                   none)

/-- `generate_language_test_cases`: the state after the method, together
with the exception it raises (`none` if it returns normally).  Test cases
added before a raise stay in the generator. -/
def generateLanguageTestCases (d : LangAnalysisDict) (g : TestCaseGenerator) :
    TestCaseGenerator × Option PyErr :=
  (applyAdds g (languageTestArgs d).1, (languageTestArgs d).2)

/-- The argument of the module-level wrapper `generate_test_cases`: the dict
`parsed_data`.  `links`/`forms` model `.get(key, [])` (an absent key equals
an empty list), `pageStructure` models the `structure` key (`none` for a
missing or empty/falsy dict) and `language` the `language` key. -/
structure ParsedData where
  links : List LinkDict
  forms : List FormDict
  pageStructure : Option PageStructureDict
  language : Option LangAnalysisDict
deriving Repr, DecidableEq

/-- The module-level function `generate_test_cases(parsed_data)`.  The
language step runs under `try/except Exception: pass`, so a raise inside it
keeps the test cases added so far and generation continues (returns). -/
def generateTestCases (p : ParsedData) : List TestCaseDict :=
  let g := freshGenerator
  -- optimistic default link checks
  let linkChecks := p.links.map (fun l =>
    LinkCheckDict.mk l.url (some 200) true none none)
  let g := if !p.links.isEmpty then generateLinkTestCases p.links linkChecks g else g
  let g := if !p.forms.isEmpty then generateFormTestCases p.forms g else g
  let g :=
    match p.pageStructure with
    | some st => generateAccessibilityTestCases st (generateStructureTestCases st g)
    | none => g
  let g :=
    match p.language with
    | some d => (generateLanguageTestCases d g).1
    | none => g
  g.test_cases

/-- The non-language part of `generate_test_cases`: everything the wrapper
adds before the guarded language step. -/
def nonLanguageTestCases (p : ParsedData) : List TestCaseDict :=
  let g := freshGenerator
  let linkChecks := p.links.map (fun l =>
    LinkCheckDict.mk l.url (some 200) true none none)
  let g := if !p.links.isEmpty then generateLinkTestCases p.links linkChecks g else g
  let g := if !p.forms.isEmpty then generateFormTestCases p.forms g else g
  let g :=
    match p.pageStructure with
    | some st => generateAccessibilityTestCases st (generateStructureTestCases st g)
    | none => g
  g.test_cases

/-- One method call on a `TestCaseGenerator` instance: a run of the
synthesizer is a fresh instance followed by any sequence of these. -/
inductive GenOp where
  | add (a : AddArgs)
  | links (ls : List LinkDict) (cs : List LinkCheckDict)
  | forms (fs : List FormDict)
  | structureOp (st : PageStructureDict)
  | accessibility (st : PageStructureDict)
  | language (d : LangAnalysisDict)

/-- Interpret one method call (for `language`, the state after the call
whether or not it raised). -/
def interpOp (g : TestCaseGenerator) : GenOp → TestCaseGenerator
  | .add a => addTestCase g a
  | .links ls cs => generateLinkTestCases ls cs g
  | .forms fs => generateFormTestCases fs g
  | .structureOp st => generateStructureTestCases st g
  | .accessibility st => generateAccessibilityTestCases st g
  | .language d => (generateLanguageTestCases d g).1

/-- A synthesizer run: a fresh instance, then a sequence of method calls. -/
def runOps (ops : List GenOp) : TestCaseGenerator :=
  ops.foldl interpOp freshGenerator

/-! ## Shared lemmas -/

/-- The id invariant of a generator state: the counter is one past the
number of produced test cases, and the test case at position `i` carries
the id formatted from `i + 1`. -/
def SeqIds (g : TestCaseGenerator) : Prop :=
  g.tc_counter = g.test_cases.length + 1 ∧
  ∀ i (h : i < g.test_cases.length),
    (g.test_cases.get ⟨i, h⟩).TC_ID = tcIdFormat (i + 1)

theorem seqIds_fresh : SeqIds freshGenerator := by
  constructor
  · rfl
  · intro i h
    simp [freshGenerator] at h

theorem seqIds_addTestCase (g : TestCaseGenerator) (a : AddArgs) (hg : SeqIds g) :
    SeqIds (addTestCase g a) := by
  obtain ⟨hc, hid⟩ := hg
  constructor
  · simp [addTestCase, hc]
  · intro i h
    simp only [addTestCase, List.length_append, List.length_singleton] at h
    by_cases hi : i < g.test_cases.length
    · have := hid i hi
      simp only [addTestCase, List.get_eq_getElem]
      rw [List.getElem_append_left hi]
      simpa using this
    · have hieq : i = g.test_cases.length := by omega
      subst hieq
      simp only [addTestCase, List.get_eq_getElem]
      rw [List.getElem_append_right (le_refl _)]
      simp [hc]

theorem seqIds_applyAdds (args : List AddArgs) :
    ∀ g : TestCaseGenerator, SeqIds g → SeqIds (applyAdds g args) := by
  induction args with
  | nil => intro g hg; exact hg
  | cons a rest ih =>
    intro g hg
    exact ih (addTestCase g a) (seqIds_addTestCase g a hg)

/-- Arguments of the `add_test_case` calls a method call performs (for the
language method, the calls up to a possible raise). -/
def opArgs : GenOp → List AddArgs
  | .add a => [a]
  | .links ls cs => linkTestArgs ls cs
  | .forms fs => formTestArgs fs
  | .structureOp st => structureTestArgs st
  | .accessibility st => accessibilityTestArgs st
  | .language d => (languageTestArgs d).1

theorem interpOp_eq_applyAdds (g : TestCaseGenerator) (op : GenOp) :
    interpOp g op = applyAdds g (opArgs op) := by
  cases op <;> rfl

theorem seqIds_runOps (ops : List GenOp) : SeqIds (runOps ops) := by
  have main : ∀ (l : List GenOp) (g : TestCaseGenerator), SeqIds g →
      SeqIds (l.foldl interpOp g) := by
    intro l
    induction l with
    | nil => intro g hg; exact hg
    | cons op rest ih =>
      intro g hg
      have : SeqIds (interpOp g op) := by
        rw [interpOp_eq_applyAdds]
        exact seqIds_applyAdds _ g hg
      exact ih _ this
  exact main ops freshGenerator seqIds_fresh

/-- The test cases already produced persist (each method only appends). -/
theorem applyAdds_adds_suffix (args : List AddArgs) :
    ∀ g : TestCaseGenerator, ∃ t, (applyAdds g args).test_cases = g.test_cases ++ t := by
  induction args with
  | nil => intro g; exact ⟨[], by simp [applyAdds]⟩
  | cons a rest ih =>
    intro g
    obtain ⟨t, ht⟩ := ih (addTestCase g a)
    refine ⟨⟨tcIdFormat g.tc_counter, a.description, a.test_step, a.expected_result,
      a.actual_result, a.status⟩ :: t, ?_⟩
    simpa [applyAdds, addTestCase] using ht

theorem length_filterMap_eq_countP {α β : Type} (f : α → Option β) (l : List α) :
    (l.filterMap f).length = l.countP (fun a => (f a).isSome) := by
  induction l with
  | nil => rfl
  | cons x xs ih =>
    by_cases hx : (f x).isSome
    · obtain ⟨b, hb⟩ := Option.isSome_iff_exists.mp hx
      simp [List.filterMap_cons, List.countP_cons, hb, ih]
    · have hnone : f x = none := Option.not_isSome_iff_eq_none.mp hx
      simp [List.filterMap_cons, List.countP_cons, hnone, ih]

theorem pyTruthyStr_eq_getD (o : Option String) :
    pyTruthyStr o = decide ((o.getD "") ≠ "") := by
  cases o <;> simp [pyTruthyStr]

theorem stringLength_mk (l : List Char) : (String.mk l).length = l.length := rfl

theorem stringToList_length (s : String) : s.toList.length = s.length := rfl

theorem length_dropWhile_le (p : Char → Bool) (l : List Char) :
    (l.dropWhile p).length ≤ l.length := by
  induction l with
  | nil => simp
  | cons a t ih =>
    by_cases hp : p a
    · simp only [List.dropWhile_cons, hp, if_true, List.length_cons]
      omega
    · simp [List.dropWhile_cons, hp]

theorem pyStrip_length_le (s : String) : (pyStrip s).length ≤ s.length := by
  calc (pyStrip s).length
      = (((s.toList.dropWhile pyIsSpace).reverse.dropWhile pyIsSpace).reverse).length := by
        rw [pyStrip, stringLength_mk]
    _ = (((s.toList.dropWhile pyIsSpace).reverse.dropWhile pyIsSpace)).length := by
        rw [List.length_reverse]
    _ ≤ (s.toList.dropWhile pyIsSpace).reverse.length :=
        length_dropWhile_le pyIsSpace _
    _ = (s.toList.dropWhile pyIsSpace).length := by rw [List.length_reverse]
    _ ≤ s.toList.length := length_dropWhile_le pyIsSpace s.toList
    _ = s.length := stringToList_length s

/-! ## Claim theorems -/

/-- C5: for every parsed page, the SEO `img_alt_ratio` is the number of
images with a non-empty `alt` attribute divided by the number of images,
lies in `[0, 1]`, and is exactly `1` when the page has no images. -/
theorem c5_img_alt_ratio (soup : Soup) :
    0 ≤ (extractSeoElements soup).img_alt_ratio ∧
    (extractSeoElements soup).img_alt_ratio ≤ 1 ∧
    (soupFindAll soup (fun e => e.name = "img") = [] →
      (extractSeoElements soup).img_alt_ratio = 1) ∧
    (soupFindAll soup (fun e => e.name = "img") ≠ [] →
      (extractSeoElements soup).img_alt_ratio =
        (((soupFindAll soup (fun e => e.name = "img")).filter
            (fun img => ((img.get "alt").getD "") ≠ "")).length : ℚ) /
          ((soupFindAll soup (fun e => e.name = "img")).length : ℚ)) := by
  by_cases hempty : soupFindAll soup (fun e => e.name = "img") = []
  · have hval : (extractSeoElements soup).img_alt_ratio = 1 := by
      simp [extractSeoElements, List.isEmpty_iff.mpr hempty]
    refine ⟨by rw [hval]; norm_num, by rw [hval], fun _ => hval, fun hne => absurd hempty hne⟩
  · have hiseq : (soupFindAll soup (fun e => e.name = "img")).isEmpty = false :=
      List.isEmpty_eq_false_iff_exists_mem.mpr
        (match List.exists_mem_of_ne_nil _ hempty with | ⟨x, hx⟩ => ⟨x, hx⟩)
    have hfil : (soupFindAll soup (fun e => e.name = "img")).filter
          (fun img => pyTruthyStr (img.get "alt")) =
        (soupFindAll soup (fun e => e.name = "img")).filter
          (fun img => ((img.get "alt").getD "") ≠ "") := by
      apply List.filter_congr
      intro img _
      exact pyTruthyStr_eq_getD (img.get "alt")
    have hval : (extractSeoElements soup).img_alt_ratio =
        (((soupFindAll soup (fun e => e.name = "img")).filter
            (fun img => ((img.get "alt").getD "") ≠ "")).length : ℚ) /
          ((soupFindAll soup (fun e => e.name = "img")).length : ℚ) := by
      simp only [extractSeoElements, hiseq, if_false, Bool.false_eq_true, hfil]
    have hn : 0 < (soupFindAll soup (fun e => e.name = "img")).length :=
      List.length_pos.mpr hempty
    have hk : ((soupFindAll soup (fun e => e.name = "img")).filter
          (fun img => ((img.get "alt").getD "") ≠ "")).length ≤
        (soupFindAll soup (fun e => e.name = "img")).length :=
      List.length_filter_le _ _
    refine ⟨?_, ?_, fun habs => absurd habs hempty, fun _ => hval⟩
    · rw [hval]
      positivity
    · rw [hval]
      rw [div_le_one (by exact_mod_cast hn)]
      exact_mod_cast hk

/-- C5 witness: a concrete page with two images, one with non-empty alt. -/
theorem c5_img_alt_ratio_witness :
    (extractSeoElements
        [Node.elem (.mk "body" []
          [Node.elem (.mk "img" [("src", "a.png"), ("alt", "A")] []),
           Node.elem (.mk "img" [("src", "b.png")] [])])]).img_alt_ratio =
      (1 : ℚ) / 2 := by
  have h := (c5_img_alt_ratio
    [Node.elem (.mk "body" []
      [Node.elem (.mk "img" [("src", "a.png"), ("alt", "A")] []),
       Node.elem (.mk "img" [("src", "b.png")] [])])]).2.2.2
    (by intro habs; exact absurd (congrArg List.isEmpty habs) (by decide))
  rw [h]
  have h1 : (List.filter (fun img => decide (((img.get "alt").getD "") ≠ ""))
      (soupFindAll
        [Node.elem (.mk "body" []
          [Node.elem (.mk "img" [("src", "a.png"), ("alt", "A")] []),
           Node.elem (.mk "img" [("src", "b.png")] [])])]
        (fun e => decide (e.name = "img")))).length = 1 := rfl
  have h2 : (soupFindAll
      [Node.elem (.mk "body" []
        [Node.elem (.mk "img" [("src", "a.png"), ("alt", "A")] []),
         Node.elem (.mk "img" [("src", "b.png")] [])])]
      (fun e => decide (e.name = "img"))).length = 2 := rfl
  rw [h1, h2]
  norm_num

/-- C9: the synthesizer is deterministic — `generate_test_cases` is a pure
function of its five analysis inputs (nothing in the embedded generator
derives any field from a clock; the source's `datetime` import is unused in
this module), so identical inputs give identical ordered outputs. -/
theorem c9_deterministic (p q : ParsedData) (h : p = q) :
    generateTestCases p = generateTestCases q := by
  rw [h]

/-- C9 witness at a concrete input. -/
theorem c9_deterministic_witness :
    generateTestCases ⟨[⟨"http://x.com/a", "A", "internal"⟩], [], none, none⟩ =
      generateTestCases ⟨[⟨"http://x.com/a", "A", "internal"⟩], [], none, none⟩ :=
  c9_deterministic _ _ rfl

/-- C10: whenever the text fetched by the module-level wrapper does not
contain the literal substring `<html>`, the wrapper returns the text with
`<html>` prepended — which is never equal to the fetched text. -/
theorem c10_html_marker (env : Nat → Except ReqExcKind HttpResponse)
    (url : String) (ct rt : ℚ) (text : String) (calls : List CallRec)
    (h : fetchWebsiteContent env url ct rt = (.ok text, calls))
    (hno : pyIn "<html>" text = false) :
    (fetchWebsiteContentModule env url ct rt).1 = .ok ("<html>" ++ text) ∧
    "<html>" ++ text ≠ text := by
  constructor
  · simp [fetchWebsiteContentModule, h, hno]
  · intro he
    have hlen := congrArg String.length he
    rw [String.length_append] at hlen
    have h6 : ("<html>" : String).length = 6 := rfl
    omega

/-- C10 witness: a server body `abc` comes back as `<html>abc`. -/
theorem c10_html_marker_witness :
    (fetchWebsiteContentModule (fun _ => .ok ⟨"abc", 200⟩) "http://x.com" 5 30).1 =
      .ok "<html>abc" ∧ ("<html>abc" : String) ≠ "abc" := by
  have h := c10_html_marker (fun _ => .ok ⟨"abc", 200⟩) "http://x.com" 5 30 "abc"
    [⟨"http://x.com", 5, 30, true⟩] rfl (by decide)
  exact ⟨h.1, by intro he; exact h.2 (by exact he)⟩

/-- C1: in every synthesizer run (a fresh `TestCaseGenerator` followed by
any sequence of its generator-method calls), the `TC_ID`s form the strictly
increasing gapless sequence `TC_001, TC_002, ...` — the test case at
position `i` carries `tcIdFormat (i+1)` and the counter tracks the output
length — and every method call mutates the instance only through
`add_test_case` (it equals `applyAdds` of its argument list). -/
theorem c1_tc_ids_sequential (ops : List GenOp) :
    ((runOps ops).tc_counter = (runOps ops).test_cases.length + 1 ∧
      ∀ i (h : i < (runOps ops).test_cases.length),
        ((runOps ops).test_cases.get ⟨i, h⟩).TC_ID = tcIdFormat (i + 1)) ∧
    (∀ (g : TestCaseGenerator) (op : GenOp), interpOp g op = applyAdds g (opArgs op)) :=
  ⟨seqIds_runOps ops, interpOp_eq_applyAdds⟩

/-- C1 witness: a concrete three-call run has ids `TC_001`..`TC_003`. -/
theorem c1_tc_ids_sequential_witness :
    ((runOps [.add ⟨"d1", "s1", "e1", "a1", "Pass"⟩,
              .add ⟨"d2", "s2", "e2", "a2", "Warning"⟩,
              .add ⟨"d3", "s3", "e3", "a3", "Fail"⟩]).test_cases.get
        ⟨2, by decide⟩).TC_ID = "TC_003" := by
  have h := (c1_tc_ids_sequential
    [.add ⟨"d1", "s1", "e1", "a1", "Pass"⟩,
     .add ⟨"d2", "s2", "e2", "a2", "Warning"⟩,
     .add ⟨"d3", "s3", "e3", "a3", "Fail"⟩]).1.2 2 (by decide)
  rw [h]
  rfl

/-- C6: when the extracted, whitespace-normalized text of a page has fewer
than 10 characters, `analyze_language` returns (it does not raise) the
partial result: `error` set, only the declared language code carried over
(`None` when no language is declared), `detected_language` `None`, an empty
`other_languages` list, direction defaulted to `ltr`, and with
`language_elements` and `charset` still computed. -/
theorem c6_short_circuit (classify : String → Except String (String × ℚ))
    (charsetDetect : String → Except Unit (Option String))
    (soup : Soup) (htmlContent : String)
    (h : (extractTextContent soup).length < 10) :
    analyzeLanguage classify charsetDetect soup htmlContent =
      ⟨some "Insufficient text content for language analysis",
       some (if declaredLangOf soup ≠ "" then
           some ⟨declaredLangOf soup, none, none⟩
         else none),
       some none,
       some [],
       some "ltr",
       some (analyzeLanguageElements soup),
       some (detectCharsetPy charsetDetect htmlContent),
       none⟩ := by
  have hstrip : (pyStrip (extractTextContent soup)).length < 10 :=
    lt_of_le_of_lt (pyStrip_length_le _) h
  unfold analyzeLanguage
  rw [if_pos]
  simp [hstrip]

/-- C6 witness: `<html lang="en"><body>Hi</body></html>` (2 characters of
text) yields exactly the short-circuit result. -/
theorem c6_short_circuit_witness :
    analyzeLanguage (fun _ => .error "unused") (fun _ => .ok (some "utf-8"))
      [Node.elem (.mk "html" [("lang", "en")]
        [Node.elem (.mk "body" [] [Node.text "Hi"])])] "x" =
      ⟨some "Insufficient text content for language analysis",
       some (some ⟨"en", none, none⟩),
       some none,
       some [],
       some "ltr",
       some ⟨[⟨"html", "en"⟩], [], ⟨[], none⟩, []⟩,
       some (some "utf-8"),
       none⟩ := by
  have h := c6_short_circuit (fun _ => .error "unused") (fun _ => .ok (some "utf-8"))
    [Node.elem (.mk "html" [("lang", "en")]
      [Node.elem (.mk "body" [] [Node.text "Hi"])])] "x" (by decide)
  rw [h]
  rfl

/-- C7 (code bug): the `except` clauses of `fetch_website_content` are
ordered `Timeout`, `ConnectionError`, `SSLError`, but
`requests.exceptions.SSLError` is a subclass of `ConnectionError`, so a TLS
failure is re-raised immediately by the `ConnectionError` clause and the
retry-without-verification branch is unreachable: a first-attempt
`SSLError` produces exactly one HTTP call and propagates, with no second
call with `verify=False`.  The timeout and connection-failure clauses of
the policy do behave as specified (second and third conjunct). -/
theorem c7_ssl_retry_unreachable :
    fetchWebsiteContent (fun _ => .error .sslError) "https://x.com" 5 30 =
      (.error .sslError, [⟨"https://x.com", 5, 30, true⟩]) ∧
    fetchWebsiteContent
        (fun i => if i = 0 then .error .readTimeout else .ok ⟨"ok", 200⟩)
        "https://x.com" 5 30 =
      (.ok "ok", [⟨"https://x.com", 5, 30, true⟩, ⟨"https://x.com", 5, 60, true⟩]) ∧
    fetchWebsiteContent (fun _ => .error .connectionError) "https://x.com" 5 30 =
      (.error .connectionError, [⟨"https://x.com", 5, 30, true⟩]) := by
  refine ⟨rfl, ?_, rfl⟩
  have h2 : (30 : ℚ) * 2 = 60 := by norm_num
  show (Prod.mk (Except.ok "ok")
      [CallRec.mk "https://x.com" 5 30 true,
       CallRec.mk "https://x.com" 5 ((30 : ℚ) * 2) true]) = _
  rw [h2]

/-- C8 counterexample: `check_link_accessibility` can raise — the claim
says it never does.  For the URL `http://[::1` the `urljoin` call raises
`ValueError("Invalid IPv6 URL")`, which the `except RequestException`
handler does not catch, so the exception propagates (no `LinkCheck` record
is produced). -/
theorem c8_counterexample :
    checkLinkAccessibility (fun _ => .ok ⟨200, "", false⟩) "http://x.com"
      "http://[::1" = .error "Invalid IPv6 URL" := by
  rfl

/-- C8 (amended): for every URL whose resolution against the base URL
succeeds, `check_link_accessibility` does not raise; the link is classified
accessible iff the final status code after redirects is in `[200, 400)`,
and a network failure (`RequestException`) yields a record with
`is_accessible = False`, `status_code = None` and `error = str(e)` (so the
error message is the probe failure's message, non-empty whenever that
message is). -/
theorem c8_amended (head : String → Except String HeadResponse)
    (baseUrl url absoluteUrl : String)
    (h : urljoin baseUrl url = .ok absoluteUrl) :
    ∃ r, checkLinkAccessibility head baseUrl url = .ok r ∧ r.url = absoluteUrl ∧
      (∀ resp, head absoluteUrl = .ok resp →
        r.is_accessible = (200 ≤ resp.status && resp.status < 400) ∧
        r.status_code = some (resp.status : Int) ∧ r.error = none) ∧
      (∀ msg, head absoluteUrl = .error msg →
        r.is_accessible = false ∧ r.status_code = none ∧ r.error = some msg) := by
  have key : checkLinkAccessibility head baseUrl url =
      (match head absoluteUrl with
       | .ok r => Except.ok (LinkCheckDict.mk absoluteUrl (some (r.status : Int))
           (200 ≤ r.status && r.status < 400)
           (if r.history then some r.finalUrl else none) none)
       | .error msg => .ok ⟨absoluteUrl, none, false, none, some msg⟩) := by
    unfold checkLinkAccessibility
    rw [h]
  cases hh : head absoluteUrl with
  | ok resp =>
    rw [hh] at key
    refine ⟨_, key, rfl, ?_, ?_⟩
    · intro resp2 hresp2
      cases hresp2
      exact ⟨rfl, rfl, rfl⟩
    · intro msg hmsg
      cases hmsg
  | error msg =>
    rw [hh] at key
    refine ⟨_, key, rfl, ?_, ?_⟩
    · intro resp2 hresp2
      cases hresp2
    · intro msg2 hmsg2
      cases hmsg2
      exact ⟨rfl, rfl, rfl⟩

/-- C8 witness: a 404 probe on a resolvable URL yields an inaccessible
record with the status code, and no exception. -/
theorem c8_amended_witness :
    ∃ r, checkLinkAccessibility (fun _ => .ok ⟨404, "", false⟩) "http://x.com" "/a" =
        .ok r ∧ r.url = "http://x.com/a" ∧ r.is_accessible = false ∧
        r.status_code = some 404 := by
  obtain ⟨r, hr, hurl, hok, _⟩ :=
    c8_amended (fun _ => .ok ⟨404, "", false⟩) "http://x.com" "/a" "http://x.com/a" rfl
  obtain ⟨hacc, hsc, herr⟩ := hok ⟨404, "", false⟩ rfl
  refine ⟨r, hr, hurl, ?_, ?_⟩
  · rw [hacc]; decide
  · rw [hsc]; rfl

/-- The generator state `generate_test_cases` has built just before the
guarded language step. -/
def nonLanguageState (p : ParsedData) : TestCaseGenerator :=
  let g := freshGenerator
  let linkChecks := p.links.map (fun l =>
    LinkCheckDict.mk l.url (some 200) true none none)
  let g := if !p.links.isEmpty then generateLinkTestCases p.links linkChecks g else g
  let g := if !p.forms.isEmpty then generateFormTestCases p.forms g else g
  match p.pageStructure with
  | some st => generateAccessibilityTestCases st (generateStructureTestCases st g)
  | none => g

theorem nonLanguageTestCases_eq (p : ParsedData) :
    nonLanguageTestCases p = (nonLanguageState p).test_cases := by
  cases hps : p.pageStructure <;>
    simp [nonLanguageTestCases, nonLanguageState, hps]

theorem generateTestCases_eq (p : ParsedData) :
    generateTestCases p =
      (match p.language with
       | some d => applyAdds (nonLanguageState p) (languageTestArgs d).1
       | none => nonLanguageState p).test_cases := by
  cases hl : p.language <;> cases hps : p.pageStructure <;>
    simp [generateTestCases, nonLanguageState, generateLanguageTestCases, hl, hps]

/-- The shape of the partial results `analyze_language` produces when it
cannot analyze (the short-circuit result and the `except` result): `error`
is set, `detected_language` is absent or `None`, and `declared_language` is
`None` or a code-only dict with a non-empty code. -/
def partialLanguageResultB (d : LangAnalysisDict) : Bool :=
  d.error.isSome &&
  (match d.detected_language with
   | none => true
   | some none => true
   | some (some _) => false) &&
  (match d.declared_language with
   | none => false
   | some none => true
   | some (some dd) =>
     match dd.name with
     | none => decide (dd.code ≠ "")
     | some _ => false)

/-- On a partial result, `generate_language_test_cases` raises before its
first completed `add_test_case` call (a `TypeError`/`KeyError` on the
`declared`/`detected` accesses), so it adds nothing. -/
theorem languageTestArgs_partial_nil (d : LangAnalysisDict)
    (h : partialLanguageResultB d = true) : (languageTestArgs d).1 = [] := by
  unfold partialLanguageResultB at h
  cases hdecl : d.declared_language with
  | none => rw [hdecl] at h; simp at h
  | some declaredO =>
    cases hdet : d.detected_language with
    | none => simp [languageTestArgs, hdecl, hdet]
    | some detectedO =>
      rw [hdecl, hdet] at h
      cases declaredO with
      | none => simp [languageTestArgs, hdecl, hdet]
      | some dd =>
        cases hname : dd.name with
        | some n => simp [hname] at h
        | none =>
          have hcode : dd.code ≠ "" := by
            simp only [hname, Bool.and_eq_true, decide_eq_true_eq] at h
            exact h.2
          simp [languageTestArgs, hdecl, hdet, hname, hcode]

/-- C3: the wrapper `generate_test_cases` always yields all non-language
test cases (they are a prefix of the output whatever the language input
is); when the language analysis is missing, or is one of the analyzer's
partial error results, the output is exactly the non-language test cases —
the failure inside `generate_language_test_cases` is caught and skipped —
and every `analyze_language` result with `error` set has that partial
shape. -/
theorem c3_language_failure_contained (p : ParsedData) :
    (∃ t, generateTestCases p = nonLanguageTestCases p ++ t) ∧
    (p.language = none → generateTestCases p = nonLanguageTestCases p) ∧
    (∀ d, p.language = some d → partialLanguageResultB d = true →
      generateTestCases p = nonLanguageTestCases p) ∧
    (∀ (classify : String → Except String (String × ℚ))
       (charsetDetect : String → Except Unit (Option String))
       (soup : Soup) (htmlContent : String),
      (analyzeLanguage classify charsetDetect soup htmlContent).error.isSome = true →
      partialLanguageResultB
        (analyzeLanguage classify charsetDetect soup htmlContent) = true) := by
  refine ⟨?_, ?_, ?_, ?_⟩
  · cases hl : p.language with
    | none =>
      exact ⟨[], by rw [generateTestCases_eq, nonLanguageTestCases_eq, hl]; simp⟩
    | some d =>
      obtain ⟨t, ht⟩ := applyAdds_adds_suffix (languageTestArgs d).1 (nonLanguageState p)
      refine ⟨t, ?_⟩
      rw [generateTestCases_eq, nonLanguageTestCases_eq, hl]
      exact ht
  · intro hl
    rw [generateTestCases_eq, nonLanguageTestCases_eq, hl]
  · intro d hl hpartial
    rw [generateTestCases_eq, nonLanguageTestCases_eq, hl]
    simp [languageTestArgs_partial_nil d hpartial, applyAdds]
  · intro classify charsetDetect soup htmlContent herr
    unfold analyzeLanguage at herr ⊢
    by_cases hshort :
        (extractTextContent soup = "" ||
          (pyStrip (extractTextContent soup)).length < 10) = true
    · rw [if_pos hshort] at herr ⊢
      by_cases hd : declaredLangOf soup ≠ "" <;>
        simp [partialLanguageResultB, hd]
    · rw [if_neg hshort] at herr ⊢
      cases hc : classify (extractTextContent soup) with
      | error msg =>
        by_cases hd : declaredLangOf soup ≠ "" <;>
          simp [partialLanguageResultB, hd]
      | ok res =>
        obtain ⟨lang, conf⟩ := res
        rw [hc] at herr
        simp at herr

/-- C3 witness: a concrete short-circuit language result (declared `en`)
leaves the non-language test cases unchanged on a concrete page input. -/
theorem c3_language_failure_contained_witness :
    generateTestCases
        ⟨[⟨"http://x.com/a", "A", "internal"⟩], [],
         none,
         some ⟨some "Insufficient text content for language analysis",
               some (some ⟨"en", none, none⟩), some none, some [], some "ltr",
               some emptyLangElems, some (some "utf-8"), none⟩⟩ =
      nonLanguageTestCases
        ⟨[⟨"http://x.com/a", "A", "internal"⟩], [],
         none,
         some ⟨some "Insufficient text content for language analysis",
               some (some ⟨"en", none, none⟩), some none, some [], some "ltr",
               some emptyLangElems, some (some "utf-8"), none⟩⟩ :=
  (c3_language_failure_contained _).2.2.1
    ⟨some "Insufficient text content for language analysis",
     some (some ⟨"en", none, none⟩), some none, some [], some "ltr",
     some emptyLangElems, some (some "utf-8"), none⟩ rfl (by decide)

/-- A page with no meta tags at all (no viewport meta in particular). -/
def c2Soup : Soup :=
  [.elem (.mk "html" []
    [.elem (.mk "body" [] [.elem (.mk "h1" [] [.text "Hi"])])])]

/-- `extract_page_structure` of `c2Soup`. -/
def c2Structure : PageStructureDict :=
  ⟨none,
   [("h1", ["Hi"]), ("h2", []), ("h3", []), ("h4", []), ("h5", []), ("h6", [])],
   [("description", none), ("keywords", none), ("viewport", none),
    ("charset", none), ("robots", none)],
   [], ⟨0, 0, 0⟩, ⟨0, 0, 0⟩, none, [], ⟨0, 0, 0⟩, [],
   ⟨0, ⟨0, 0, 0, 0, 0, 0⟩, 0, 0, 0⟩,
   ⟨false, 1, false, false, 1⟩,
   ⟨false, 0, 0, 0⟩,
   ⟨[], []⟩⟩

/-- C2 counterexample: on a page with no viewport meta tag at all, the
parser still records a `viewport` key (with value `None`) in the meta dict,
and the generator does produce the responsiveness test case — with status
`Fail` and actual result `Viewport meta tag is present: None` — contrary to
the claim that no responsiveness test case is generated; the
scripts/stylesheets test cases are produced as well. -/
theorem c2_counterexample :
    extractPageStructure c2Soup "http://x.com" = .ok c2Structure ∧
    c2Structure.meta.any (fun p => p.1 = "viewport") = true ∧
    (structureTestArgs c2Structure).filter
        (fun a => a.description = "Verify responsive design meta tag") =
      [⟨"Verify responsive design meta tag",
        "Check if page has viewport meta tag",
        "Page should have viewport meta tag for responsiveness",
        "Viewport meta tag is present: None",
        "Fail"⟩] ∧
    ((structureTestArgs c2Structure).filter
        (fun a => a.description = "Verify script loading")).length = 1 ∧
    ((structureTestArgs c2Structure).filter
        (fun a => a.description = "Verify stylesheet loading")).length = 1 := by
  refine ⟨rfl, rfl, rfl, rfl, rfl⟩

/-- C2 (amended): for every structure produced by the parser, the meta dict
always carries a `viewport` entry — valued `None` exactly when the page has
no viewport meta tag — so the responsiveness test case is always generated
(right after the title test and the five per-entry meta tests): it passes
iff the viewport value, with `None` read as the empty string, contains
`width=device-width`, and in particular it is generated with status `Fail`
when the viewport meta is absent; the scripts and stylesheets test cases
follow it unconditionally. -/
theorem c2_amended (soup : Soup) (baseUrl : String) (st : PageStructureDict)
    (h : extractPageStructure soup baseUrl = .ok st) :
    st.meta.find? (fun p => p.1 = "viewport") =
      some ("viewport", metaEntry soup "viewport") ∧
    (∃ rest, structureTestArgs st =
      [⟨"Verify page title",
        "Check if page has a title",
        "Page should have a title",
        "Page title is \x27" ++ pyStrOfOptStr st.title ++ "\x27",
        if pyTruthyStr st.title then "Pass" else "Fail"⟩] ++
      st.meta.map (fun p =>
        ⟨"Verify meta " ++ p.1,
         "Check if page has meta " ++ p.1,
         "Page should have meta " ++ p.1,
         "Meta " ++ p.1 ++ " is " ++ (if pyTruthyStr p.2 then "present" else "missing"),
         if pyTruthyStr p.2 then "Pass" else "Fail"⟩) ++
      [⟨"Verify responsive design meta tag",
        "Check if page has viewport meta tag",
        "Page should have viewport meta tag for responsiveness",
        "Viewport meta tag is present: " ++ pyStrOfOptStr (metaEntry soup "viewport"),
        if pyIn "width=device-width" ((metaEntry soup "viewport").getD "")
        then "Pass" else "Fail"⟩,
       ⟨"Verify script loading",
        "Check script inclusion",
        "Page should load all required scripts",
        "Found " ++ toString st.scripts.total ++ " scripts (" ++
          toString st.scripts.external ++ " external, " ++
          toString st.scripts.inline ++ " inline)",
        if st.scripts.total > 0 then "Pass" else "Fail"⟩,
       ⟨"Verify stylesheet loading",
        "Check stylesheet inclusion",
        "Page should load all required stylesheets",
        "Found " ++ toString st.stylesheets.total ++ " stylesheets (" ++
          toString st.stylesheets.external ++ " external, " ++
          toString st.stylesheets.inline ++ " inline)",
        if st.stylesheets.total > 0 then "Pass" else "Fail"⟩] ++ rest) ∧
    (metaEntry soup "viewport" = none →
      (if pyIn "width=device-width" ((metaEntry soup "viewport").getD "")
       then "Pass" else ("Fail" : String)) = "Fail") := by
  cases hsec : extractSecurityElements soup baseUrl with
  | error e =>
    rw [extractPageStructure, hsec] at h
    simp [Bind.bind, Except.bind] at h
  | ok sec =>
    rw [extractPageStructure, hsec] at h
    simp only [Bind.bind, Except.bind, pure, Except.pure, Except.ok.injEq] at h
    subst h
    refine ⟨by simp [List.find?], ?_, ?_⟩
    · exact ⟨_, by simp [structureTestArgs, List.find?, metaEntry, metaGetOrEmpty]; rfl⟩
    · intro hnone
      rw [hnone]
      decide

/-- C2 amended witness: on the concrete no-viewport page the `viewport`
meta entry exists with value `None`, and the substring rule gives `Fail`. -/
theorem c2_amended_witness :
    c2Structure.meta.find? (fun p => p.1 = "viewport") = some ("viewport", none) ∧
    (if pyIn "width=device-width"
        ((metaEntry c2Soup "viewport").getD "") then "Pass" else ("Fail" : String)) =
      "Fail" := by
  have h := c2_amended c2Soup "http://x.com" c2Structure rfl
  exact ⟨h.1, h.2.2 rfl⟩

/-- Two anchors: one with a plain relative href, one whose href makes URL
resolution raise `ValueError("Invalid IPv6 URL")`. -/
def c4Soup : Soup :=
  [.elem (.mk "body" []
    [.elem (.mk "a" [("href", "foo")] [.text "A"]),
     .elem (.mk "a" [("href", "http://[::1")] [.text "B"])])]

/-- C4 counterexample: with the (non-empty) base URL `x.com`,
`extract_links` returns a single entry whose `url` is the relative string
`foo` — not an absolute URI (it parses with an empty scheme) — typed
`internal` (both netlocs are empty); and the anchor whose resolution raises
is skipped outright instead of defaulting its type to `external` (no second
entry exists). -/
theorem c4_counterexample :
    extractLinks c4Soup "x.com" = .ok [⟨"foo", "A", "internal"⟩] ∧
    (match urlsplit "foo" "" with
     | .ok s => s.scheme
     | .error _ => "") = "" := by
  exact ⟨rfl, rfl⟩

/-- C4 (amended): every entry of `extract_links` comes from an anchor with
a present, non-empty href whose `urljoin` resolution against the base URL
succeeded; the entry's `url` is exactly that resolution (absolute only when
base and href make it so), its `text` the anchor's stripped text, and its
`type` is `internal` iff the re-parsed resolved URL's netloc equals the
base URL's netloc, any re-parse failure defaulting to `external`.  Anchors
with missing/empty hrefs or failing resolution are skipped silently: the
number of entries is exactly the number of anchors with a non-empty href
and a succeeding resolution. -/
theorem c4_amended (soup : Soup) (baseUrl : String) (links : List LinkDict)
    (h : extractLinks soup baseUrl = .ok links) :
    (∀ l ∈ links,
      ∃ a ∈ soupFindAll soup (fun e => e.name = "a" && e.attrPresent "href"),
        ((a.get "href").getD "") ≠ "" ∧
        urljoin baseUrl ((a.get "href").getD "") = .ok l.url ∧
        l.text = a.getTextStrip ∧
        (∀ bp, urlparse baseUrl "" = .ok bp →
          l.type = match urlparse l.url "" with
            | .ok p => if p.netloc = bp.netloc then "internal" else "external"
            | .error _ => "external")) ∧
    links.length =
      (soupFindAll soup (fun e => e.name = "a" && e.attrPresent "href")).countP
        (fun a => ((a.get "href").getD "") ≠ "" &&
          (urljoin baseUrl ((a.get "href").getD "")).toOption.isSome) := by
  cases hbp : urlparse baseUrl "" with
  | error e =>
    rw [extractLinks, hbp] at h
    simp [Bind.bind, Except.bind] at h
  | ok bp =>
    rw [extractLinks, hbp] at h
    simp only [Bind.bind, Except.bind, pure, Except.pure, Except.ok.injEq] at h
    subst h
    constructor
    · intro l hl
      obtain ⟨a, ha, hfa⟩ := List.mem_filterMap.mp hl
      by_cases h1 : ((a.get "href").getD "") = ""
      · simp [h1] at hfa
      · cases hj : urljoin baseUrl ((a.get "href").getD "") with
        | error e => simp [h1, hj] at hfa
        | ok absoluteUrl =>
          simp only [h1, if_false, hj] at hfa
          cases hfa
          refine ⟨a, ha, h1, hj, rfl, ?_⟩
          intro bp2 hbp2
          have hbpeq : bp = bp2 := Except.ok.inj hbp2
          subst hbpeq
          rfl
    · rw [length_filterMap_eq_countP]
      apply List.countP_congr
      intro a _
      by_cases h1 : ((a.get "href").getD "") = ""
      · simp [h1]
      · cases hj : urljoin baseUrl ((a.get "href").getD "") with
        | error e => simp [h1, hj, Except.toOption]
        | ok absoluteUrl => simp [h1, hj, Except.toOption]

/-- C4 amended witness: a concrete single-anchor page; the theorem yields
the anchor behind the single produced entry. -/
theorem c4_amended_witness :
    ∃ a ∈ soupFindAll [Node.elem (.mk "body" []
        [Node.elem (.mk "a" [("href", "a")] [Node.text "A"])])]
        (fun e => e.name = "a" && e.attrPresent "href"),
      urljoin "http://x.com" ((a.get "href").getD "") = .ok "http://x.com/a" := by
  obtain ⟨a, ha, _, hurl, _, _⟩ :=
    (c4_amended [Node.elem (.mk "body" []
        [Node.elem (.mk "a" [("href", "a")] [Node.text "A"])])]
      "http://x.com" [⟨"http://x.com/a", "A", "internal"⟩] rfl).1
      ⟨"http://x.com/a", "A", "internal"⟩ (by simp)
  exact ⟨a, ha, hurl⟩

end TesterTool
